import Mathlib

/-!
# Buffer-swapper core of the compositor

A shallow embedding of `src/server/compositor/swapper_factory.cpp` and
`src/server/compositor/buffer_bundle_surfaces.cpp`, followed by the contract of
the swapper behind `include/server/mir/compositor/buffer_swapper.h` and by the
classes exercised by the unit tests `test_server_interpreter.cpp`,
`test_unauthorized_changer.cpp` and `test_display_configuration.cpp`.

Collaborators reached through virtual calls (the graphic buffer allocator, the
swapper behind a bundle) are records of state-passing functions; every call
made on them is appended to a call log kept next to the collaborator's state,
so that "how often" and "with which arguments" are statements about that log.
C++ exceptions, `assert` aborts and undefined behaviour are the `Fault`s of an
`Except`.
-/

namespace mir

namespace geometry

/-- The type `geometry::Size`: a width and a height. -/
structure Size where
  width : Nat
  height : Nat
deriving DecidableEq, Repr

/-- Modelled from the spec: the enumeration `geometry::PixelFormat` is declared
in a header outside the sources at hand; an enumerator is represented by its
numeric code. -/
structure PixelFormat where
  code : Nat
deriving DecidableEq, Repr

/-- Modelled from the spec: the enumerator `PixelFormat::abgr_8888` used by the
one-argument bundle constructor; only its identity matters. -/
def PixelFormat.abgr_8888 : PixelFormat := ⟨1⟩

end geometry

namespace compositor

open geometry

/-- Modelled from the spec: the enumeration `BufferUsage` (the usage flags of
`BufferProperties`), declared outside the sources at hand. -/
structure BufferUsage where
  code : Nat
deriving DecidableEq, Repr

/-- The type `BufferProperties`: size, format, usage, in the order of the
brace-initialiser of `swapper_factory.cpp` lines 66-67. -/
structure BufferProperties where
  size : Size
  format : PixelFormat
  usage : BufferUsage
deriving DecidableEq, Repr

/-- What the code observes of a `Buffer` behind a `std::shared_ptr<Buffer>`:
its identity and the values of `size()` and `pixel_format()`. -/
structure Buffer where
  id : Nat
  size : Size
  pixel_format : PixelFormat
deriving DecidableEq, Repr

/-- Ways a call can end other than by returning. -/
inductive Fault where
  -- a C++ exception, identified by a code
  | thrown (what : Nat)
  -- `assert(e)` with `e` false
  | assertion_failed
  -- undefined behaviour: an out-of-range `operator[]`, a null dereference
  | undefined_behaviour
deriving DecidableEq, Repr

/-- The collaborator `GraphicBufferAllocator` over its private state `σ`:
`alloc_buffer(properties)` returns a buffer or throws, and may change the
allocator's state either way. -/
structure GraphicBufferAllocator (σ : Type) where
  alloc_buffer : σ → BufferProperties → Except Nat Buffer × σ

/-- The allocator's state together with the log of the `alloc_buffer` calls
made so far (the argument of each call, oldest first). -/
structure AllocatorWorld (σ : Type) where
  state : σ
  alloc_buffer_calls : List BufferProperties

/-- Modelled from the spec: the classes `BufferSwapperMulti` (synchronous
multi-buffer swapper) and `BufferSwapperSpin` (asynchronous spin swapper) are
declared outside the sources at hand; an object made by
`std::make_shared<...>(list, n)` is represented by its class and its two
constructor arguments. -/
inductive BufferSwapper where
  | BufferSwapperMulti (buffer_list : List Buffer) (swapper_size : Nat)
  | BufferSwapperSpin (buffer_list : List Buffer) (swapper_size : Nat)
deriving DecidableEq, Repr

/-- Conversion of an `int` argument to a `size_t` parameter (64 bits wide):
value preserving on non-negative values, wrapping on negative ones. -/
def int_to_size_t (n : Int) : Nat := (n % (2 : Int) ^ 64).toNat

/-- The class `SwapperFactory`: the members `gr_allocator` (a
`std::shared_ptr`, which may be null) and `number_of_buffers` (an `int`). -/
structure SwapperFactory (σ : Type) where
  gr_allocator : Option (GraphicBufferAllocator σ)
  number_of_buffers : Int

/-- The constructor `SwapperFactory::SwapperFactory(gr_alloc, number_of_buffers)`
(lines 35-42): initialises both members, then `assert(gr_alloc)`. -/
def SwapperFactory.new {σ : Type} (gr_alloc : Option (GraphicBufferAllocator σ))
    (number_of_buffers : Int) : Except Fault (SwapperFactory σ) :=
  match gr_alloc with
  | some _ => .ok { gr_allocator := gr_alloc, number_of_buffers := number_of_buffers }
  | none => .error .assertion_failed

/-- The expression `gr_allocator->alloc_buffer(properties)`: dereferences the
pointer, logs the call, and turns an exception of the allocator into a fault. -/
def call_alloc_buffer {σ : Type} (gr_allocator : Option (GraphicBufferAllocator σ))
    (properties : BufferProperties) (w : AllocatorWorld σ) :
    Except Fault Buffer × AllocatorWorld σ :=
  match gr_allocator with
  | none => (.error .undefined_behaviour, w)
  | some a =>
    match a.alloc_buffer w.state properties with
    | (.ok b, s) => (.ok b, ⟨s, w.alloc_buffer_calls ++ [properties]⟩)
    | (.error e, s) => (.error (.thrown e), ⟨s, w.alloc_buffer_calls ++ [properties]⟩)

/-- The loop of `fill_buffer_list` (lines 47-51) with `remaining` iterations
still to run: each iteration pushes the buffer returned by `alloc_buffer` to the
back of `list`; an exception leaves the loop at once. -/
def fill_buffer_list_loop {σ : Type} (f : SwapperFactory σ)
    (requested_buffer_properties : BufferProperties) :
    Nat → List Buffer → AllocatorWorld σ → Except Fault (List Buffer) × AllocatorWorld σ
  | 0, list, w => (.ok list, w)
  | remaining + 1, list, w =>
    match call_alloc_buffer f.gr_allocator requested_buffer_properties w with
    | (.ok b, w1) => fill_buffer_list_loop f requested_buffer_properties remaining (list ++ [b]) w1
    | (.error e, w1) => (.error e, w1)

/-- The member `SwapperFactory::fill_buffer_list(list, num_buffers, properties)`
(lines 44-52): `for (i = 0; i < num_buffers; i++)` runs `num_buffers` times, and
not at all when `num_buffers` is zero or negative. -/
def SwapperFactory.fill_buffer_list {σ : Type} (f : SwapperFactory σ) (list : List Buffer)
    (num_buffers : Int) (requested_buffer_properties : BufferProperties)
    (w : AllocatorWorld σ) : Except Fault (List Buffer) × AllocatorWorld σ :=
  fill_buffer_list_loop f requested_buffer_properties num_buffers.toNat list w

/-- The member `SwapperFactory::create_sync_swapper_reuse(list, buffer_num)`
(lines 54-58). -/
def SwapperFactory.create_sync_swapper_reuse {σ : Type} (_f : SwapperFactory σ)
    (list : List Buffer) (buffer_num : Nat) (w : AllocatorWorld σ) :
    BufferSwapper × AllocatorWorld σ :=
  (.BufferSwapperMulti list buffer_num, w)

/-- The member `SwapperFactory::create_sync_swapper_new_buffers(actual, requested)`
(lines 60-69). The result is the returned swapper or the fault, the value of
the out-parameter `actual_buffer_properties` after the call, and the world
after the call. `list[0]` on an empty vector is undefined behaviour. -/
def SwapperFactory.create_sync_swapper_new_buffers {σ : Type} (f : SwapperFactory σ)
    (actual_buffer_properties : BufferProperties)
    (requested_buffer_properties : BufferProperties) (w : AllocatorWorld σ) :
    Except Fault BufferSwapper × BufferProperties × AllocatorWorld σ :=
  match f.fill_buffer_list [] f.number_of_buffers requested_buffer_properties w with
  | (.error e, w1) => (.error e, actual_buffer_properties, w1)
  | (.ok list, w1) =>
    match list[0]? with
    | none => (.error .undefined_behaviour, actual_buffer_properties, w1)
    | some b0 =>
      (.ok (.BufferSwapperMulti list (int_to_size_t f.number_of_buffers)),
        { size := b0.size, format := b0.pixel_format,
          usage := requested_buffer_properties.usage },
        w1)

/-- The member `SwapperFactory::create_async_swapper_reuse(list, buffer_num)`
(lines 71-75). -/
def SwapperFactory.create_async_swapper_reuse {σ : Type} (_f : SwapperFactory σ)
    (list : List Buffer) (buffer_num : Nat) (w : AllocatorWorld σ) :
    BufferSwapper × AllocatorWorld σ :=
  (.BufferSwapperSpin list buffer_num, w)

/-- The constant `async_buffer_count` of line 80. -/
def async_buffer_count : Int := 3

/-- The member `SwapperFactory::create_async_swapper_new_buffers(actual, requested)`
(lines 77-86); the result is laid out as for the synchronous member. -/
def SwapperFactory.create_async_swapper_new_buffers {σ : Type} (f : SwapperFactory σ)
    (actual_buffer_properties : BufferProperties)
    (requested_buffer_properties : BufferProperties) (w : AllocatorWorld σ) :
    Except Fault BufferSwapper × BufferProperties × AllocatorWorld σ :=
  match f.fill_buffer_list [] async_buffer_count requested_buffer_properties w with
  | (.error e, w1) => (.error e, actual_buffer_properties, w1)
  | (.ok list, w1) =>
    match list[0]? with
    | none => (.error .undefined_behaviour, actual_buffer_properties, w1)
    | some b0 =>
      (.ok (.BufferSwapperSpin list (int_to_size_t async_buffer_count)),
        { size := b0.size, format := b0.pixel_format,
          usage := requested_buffer_properties.usage },
        w1)

/-- A run of successful allocations: starting in allocator state `s`,
successive `alloc_buffer(p)` calls return the buffers `bs`, in this order, and
leave the allocator in state `t`. -/
inductive AllocRun {σ : Type} (a : GraphicBufferAllocator σ) (p : BufferProperties) :
    σ → List Buffer → σ → Prop where
  | done (s : σ) : AllocRun a p s [] s
  | step {s s1 t : σ} {b : Buffer} {bs : List Buffer} :
      a.alloc_buffer s p = (.ok b, s1) → AllocRun a p s1 bs t → AllocRun a p s (b :: bs) t

/-- An allocator for examples: its state counts the calls made; call number `k`
returns a buffer with id `k` whose width is the requested width rounded up to
an even number, and the call made in state `fail_at` throws exception 7. -/
def counting_allocator (fail_at : Nat) : GraphicBufferAllocator Nat where
  alloc_buffer := fun k p =>
    if k = fail_at then (.error 7, k + 1)
    else (.ok { id := k, size := ⟨p.size.width + p.size.width % 2, p.size.height⟩,
                pixel_format := p.format }, k + 1)

/-- Example properties: 5 by 4, format code 1, usage code 2. -/
def example_properties : BufferProperties :=
  { size := ⟨5, 4⟩, format := ⟨1⟩, usage := ⟨2⟩ }

/-- Example value of the out-parameter before a call. -/
def stale_properties : BufferProperties :=
  { size := ⟨0, 0⟩, format := ⟨0⟩, usage := ⟨0⟩ }

/-- The buffer that call number `k` of `counting_allocator` returns for
`example_properties`. -/
def example_buffer (k : Nat) : Buffer :=
  { id := k, size := ⟨6, 4⟩, pixel_format := ⟨1⟩ }

/-- A factory over `counting_allocator`, as the constructor leaves it. -/
def example_factory (fail_at : Nat) (number_of_buffers : Int) : SwapperFactory Nat :=
  { gr_allocator := some (counting_allocator fail_at), number_of_buffers := number_of_buffers }

/-- A fresh world: allocator state 0, no call made yet. -/
def fresh_world : AllocatorWorld Nat := ⟨0, []⟩

/-- A call made on a swapper, as recorded in the swapper's call log. -/
inductive SwapperCall where
  | client_acquire
  | client_release (queued_buffer : Buffer)
  | compositor_acquire
  | compositor_release (released_buffer : Buffer)
  | force_client_completion
  | end_responsibility
deriving DecidableEq, Repr

/-- The interface `BufferSwapper` of `buffer_swapper.h` (lines 32-85), which the
bundle's `BufferSwapperMaster` realises, over the swapper's private state `S`:
each virtual member returns or faults and may change the state. -/
structure BufferSwapperMaster (S : Type) where
  client_acquire : S → Except Fault Buffer × S
  client_release : S → Buffer → Except Fault Unit × S
  compositor_acquire : S → Except Fault Buffer × S
  compositor_release : S → Buffer → Except Fault Unit × S
  force_client_completion : S → Except Fault Unit × S
  end_responsibility : S → Except Fault (List Buffer × Nat) × S

/-- The state of the swapper a bundle points to, with the log of the calls made
on it so far (oldest first). -/
structure SwapperWorld (S : Type) where
  state : S
  calls : List SwapperCall

/-- Modelled from the spec: the scoped handle `TemporaryCompositorBuffer` of
`temporary_buffers.h`, which is outside the sources at hand. It holds the
buffer taken from the swapper for the compositor role until it is destroyed. -/
structure TemporaryCompositorBuffer where
  buffer : Buffer
deriving DecidableEq, Repr

/-- Modelled from the spec: the scoped handle `TemporaryClientBuffer` of
`temporary_buffers.h`, which is outside the sources at hand. It holds the
buffer taken from the swapper for the client role until it is destroyed. -/
structure TemporaryClientBuffer where
  buffer : Buffer
deriving DecidableEq, Repr

/-- Modelled from the spec: the constructor `TemporaryCompositorBuffer(swapper)`,
outside the sources at hand. The handle is a compositor-side scoped
acquisition: it takes its buffer with `compositor_acquire` on the swapper it is
given. -/
def TemporaryCompositorBuffer.new {S : Type} (swapper : BufferSwapperMaster S)
    (w : SwapperWorld S) : Except Fault TemporaryCompositorBuffer × SwapperWorld S :=
  match swapper.compositor_acquire w.state with
  | (.ok b, s) => (.ok ⟨b⟩, ⟨s, w.calls ++ [.compositor_acquire]⟩)
  | (.error e, s) => (.error e, ⟨s, w.calls ++ [.compositor_acquire]⟩)

/-- Modelled from the spec: the destructor of `TemporaryCompositorBuffer`,
outside the sources at hand: the matching `compositor_release` of the held
buffer. -/
def TemporaryCompositorBuffer.destroy {S : Type} (swapper : BufferSwapperMaster S)
    (h : TemporaryCompositorBuffer) (w : SwapperWorld S) :
    Except Fault Unit × SwapperWorld S :=
  ((swapper.compositor_release w.state h.buffer).1,
    ⟨(swapper.compositor_release w.state h.buffer).2,
      w.calls ++ [.compositor_release h.buffer]⟩)

/-- Modelled from the spec: the constructor `TemporaryClientBuffer(swapper)`,
outside the sources at hand. The handle is a client-side scoped acquisition: it
takes its buffer with `client_acquire` on the swapper it is given. -/
def TemporaryClientBuffer.new {S : Type} (swapper : BufferSwapperMaster S)
    (w : SwapperWorld S) : Except Fault TemporaryClientBuffer × SwapperWorld S :=
  match swapper.client_acquire w.state with
  | (.ok b, s) => (.ok ⟨b⟩, ⟨s, w.calls ++ [.client_acquire]⟩)
  | (.error e, s) => (.error e, ⟨s, w.calls ++ [.client_acquire]⟩)

/-- Modelled from the spec: the destructor of `TemporaryClientBuffer`, outside
the sources at hand: the matching `client_release` of the held buffer. -/
def TemporaryClientBuffer.destroy {S : Type} (swapper : BufferSwapperMaster S)
    (h : TemporaryClientBuffer) (w : SwapperWorld S) :
    Except Fault Unit × SwapperWorld S :=
  ((swapper.client_release w.state h.buffer).1,
    ⟨(swapper.client_release w.state h.buffer).2,
      w.calls ++ [.client_release h.buffer]⟩)

/-- The class `BufferBundleSurfaces`: the members `swapper` (the object pointed
to lives in the `SwapperWorld`; the member is its interface), `size` and
`pixel_format`. -/
structure BufferBundleSurfaces (S : Type) where
  swapper : BufferSwapperMaster S
  size : Size
  pixel_format : PixelFormat

/-- The constructor `BufferBundleSurfaces(swapper, buffer_properties)`
(`buffer_bundle_surfaces.cpp` lines 31-38). -/
def BufferBundleSurfaces.new {S : Type} (swapper : BufferSwapperMaster S)
    (buffer_properties : BufferProperties) : BufferBundleSurfaces S :=
  { swapper := swapper, size := buffer_properties.size,
    pixel_format := buffer_properties.format }

/-- The constructor `BufferBundleSurfaces(swapper)` (lines 40-45): a
value-initialised size and `abgr_8888`. -/
def BufferBundleSurfaces.new_default {S : Type} (swapper : BufferSwapperMaster S) :
    BufferBundleSurfaces S :=
  { swapper := swapper, size := ⟨0, 0⟩, pixel_format := PixelFormat.abgr_8888 }

/-- The member `lock_back_buffer()` (lines 51-54):
`std::make_shared<TemporaryCompositorBuffer>(swapper)`. The result is the
handle or the fault, the bundle after the call, and the swapper world after
the call. -/
def BufferBundleSurfaces.lock_back_buffer {S : Type} (self : BufferBundleSurfaces S)
    (w : SwapperWorld S) :
    Except Fault TemporaryCompositorBuffer × BufferBundleSurfaces S × SwapperWorld S :=
  ((TemporaryCompositorBuffer.new self.swapper w).1, self,
    (TemporaryCompositorBuffer.new self.swapper w).2)

/-- The member `secure_client_buffer()` (lines 56-59):
`std::make_shared<TemporaryClientBuffer>(swapper)`; laid out as
`lock_back_buffer`. -/
def BufferBundleSurfaces.secure_client_buffer {S : Type} (self : BufferBundleSurfaces S)
    (w : SwapperWorld S) :
    Except Fault TemporaryClientBuffer × BufferBundleSurfaces S × SwapperWorld S :=
  ((TemporaryClientBuffer.new self.swapper w).1, self,
    (TemporaryClientBuffer.new self.swapper w).2)

/-- The member `get_bundle_pixel_format()` (lines 61-64). -/
def BufferBundleSurfaces.get_bundle_pixel_format {S : Type} (self : BufferBundleSurfaces S) :
    PixelFormat :=
  self.pixel_format

/-- The member `bundle_size()` (lines 66-69). -/
def BufferBundleSurfaces.bundle_size {S : Type} (self : BufferBundleSurfaces S) : Size :=
  self.size

/-- The member `force_requests_to_complete()` (lines 71-74):
`swapper->force_client_completion()`. -/
def BufferBundleSurfaces.force_requests_to_complete {S : Type} (self : BufferBundleSurfaces S)
    (w : SwapperWorld S) : Except Fault Unit × BufferBundleSurfaces S × SwapperWorld S :=
  ((self.swapper.force_client_completion w.state).1, self,
    ⟨(self.swapper.force_client_completion w.state).2,
      w.calls ++ [.force_client_completion]⟩)

/-- The three state-changing members of a bundle, as steps of a call sequence. -/
inductive BundleCall where
  | lock_back_buffer
  | secure_client_buffer
  | force_requests_to_complete
deriving DecidableEq, Repr

/-- One call on a bundle by a caller that carries on whatever the call's result
was: the bundle and the swapper world after the call. -/
def BufferBundleSurfaces.call {S : Type} (self : BufferBundleSurfaces S) (w : SwapperWorld S) :
    BundleCall → BufferBundleSurfaces S × SwapperWorld S
  | .lock_back_buffer => (self.lock_back_buffer w).2
  | .secure_client_buffer => (self.secure_client_buffer w).2
  | .force_requests_to_complete => (self.force_requests_to_complete w).2

/-- A sequence of calls on a bundle, first call first. -/
def BufferBundleSurfaces.calls {S : Type} (self : BufferBundleSurfaces S) (w : SwapperWorld S) :
    List BundleCall → BufferBundleSurfaces S × SwapperWorld S
  | [] => (self, w)
  | c :: cs => ((self.call w c).1).calls (self.call w c).2 cs

/-- Modelled from the spec: the scoped use of a client buffer, which is code of
callers outside the sources at hand. The caller takes the handle with
`secure_client_buffer`, runs its `operation` on the handle's buffer, and the
handle ends when the scope is left, whether `operation` returned or failed; the
result is that of `operation`. When the acquisition itself fails there is no
handle and the fault is passed on. -/
def BufferBundleSurfaces.with_client_buffer {S α : Type} (self : BufferBundleSurfaces S)
    (operation : Buffer → Except Fault α) (w : SwapperWorld S) :
    Except Fault α × SwapperWorld S :=
  match self.secure_client_buffer w with
  | (.error e, _, w1) => (.error e, w1)
  | (.ok handle, _, w1) =>
    (operation handle.buffer, (TemporaryClientBuffer.destroy self.swapper handle w1).2)

/-- Modelled from the spec: the scoped use of the compositor's back buffer,
which is code of callers outside the sources at hand; as
`with_client_buffer`, over `lock_back_buffer`. -/
def BufferBundleSurfaces.with_back_buffer {S α : Type} (self : BufferBundleSurfaces S)
    (operation : Buffer → Except Fault α) (w : SwapperWorld S) :
    Except Fault α × SwapperWorld S :=
  match self.lock_back_buffer w with
  | (.error e, _, w1) => (.error e, w1)
  | (.ok handle, _, w1) =>
    (operation handle.buffer, (TemporaryCompositorBuffer.destroy self.swapper handle w1).2)

/-! ## The swapper contract

The classes `BufferSwapperMulti` and `BufferSwapperSpin` are outside the
sources at hand; `buffer_swapper.h` declares their interface only. What follows
is the sequential reading of the contract the spec gives for both variants. -/

/-- Modelled from the spec: how a call on a swapper ends. `blocked` stands for a
call that suspends its thread (only `client_acquire` may), `shutting_down` for
the "swapper shutting down" condition, `usage_fault` for the fatal programming
error, and `unspecified` for a situation about which the spec says nothing. -/
inductive SwapperResult (α : Type) where
  | returned (a : α)
  | blocked
  | shutting_down
  | usage_fault
  | unspecified
deriving DecidableEq, Repr

/-- Modelled from the spec: the state of a swapper, the implementation of which
is outside the sources at hand. The pool is partitioned into the buffers
available for the client (oldest first), the buffers held by the client, the
posted buffer (the newest completed frame that the compositor does not hold),
and the buffers held by the compositor. `last_posted` is the buffer the latest
`compositor_acquire` returned, `original_size` the count the swapper was
constructed with. -/
structure SwapperState where
  original_size : Nat
  client_available : List Buffer
  client_held : List Buffer
  posted : Option Buffer
  compositor_held : List Buffer
  last_posted : Option Buffer
  client_disabled : Bool
  ended : Bool
deriving DecidableEq, Repr

/-- Modelled from the spec: the state right after construction of either
swapper variant from `(list, n)`: every buffer of the list is available for the
client, none is checked out, nothing is posted. The two variants have the same
external contract and differ in nothing a sequence of calls can observe. -/
def BufferSwapper.start : BufferSwapper → SwapperState
  | .BufferSwapperMulti buffer_list swapper_size
  | .BufferSwapperSpin buffer_list swapper_size =>
    { original_size := swapper_size, client_available := buffer_list, client_held := [],
      posted := none, compositor_held := [], last_posted := none,
      client_disabled := false, ended := false }

/-- The list of buffers a swapper was constructed over. -/
def BufferSwapper.buffers : BufferSwapper → List Buffer
  | .BufferSwapperMulti buffer_list _ => buffer_list
  | .BufferSwapperSpin buffer_list _ => buffer_list

/-- The count a swapper was constructed with. -/
def BufferSwapper.size : BufferSwapper → Nat
  | .BufferSwapperMulti _ swapper_size => swapper_size
  | .BufferSwapperSpin _ swapper_size => swapper_size

/-- Modelled from the spec: `client_acquire()`. After `force_client_completion`
it fails with the shutdown condition; after `end_responsibility` it is a usage
fault; it returns a buffer available for the client at once when there is one
and blocks when there is none. -/
def SwapperState.client_acquire (s : SwapperState) : SwapperResult Buffer × SwapperState :=
  if s.client_disabled then (.shutting_down, s)
  else if s.ended then (.usage_fault, s)
  else
    match s.client_available with
    | [] => (.blocked, s)
    | b :: rest =>
      (.returned b, { s with client_available := rest, client_held := s.client_held ++ [b] })

/-- Modelled from the spec: `client_release(buffer)`. A usage fault once the
client side is disabled or the swapper has ended, and when `buffer` is not
checked out to the client; otherwise the buffer becomes the posted buffer, the
one the next `compositor_acquire` returns, and a posted buffer it supersedes
becomes available for the client. -/
def SwapperState.client_release (s : SwapperState) (buffer : Buffer) :
    SwapperResult Unit × SwapperState :=
  if s.client_disabled || s.ended then (.usage_fault, s)
  else if buffer ∈ s.client_held then
    (.returned (),
      { s with client_held := s.client_held.erase buffer,
               client_available := s.client_available ++ s.posted.toList,
               posted := some buffer })
  else (.usage_fault, s)

/-- Modelled from the spec: `compositor_acquire()`. It never blocks: it returns
the posted buffer, and when no new frame is ready the last-posted buffer
again. It is a usage fault after `end_responsibility`. The spec does not say
what it returns while no frame has been posted at all. -/
def SwapperState.compositor_acquire (s : SwapperState) : SwapperResult Buffer × SwapperState :=
  if s.ended then (.usage_fault, s)
  else
    match s.posted with
    | some b =>
      (.returned b,
        { s with posted := none, compositor_held := s.compositor_held ++ [b],
                 last_posted := some b })
    | none =>
      match s.last_posted with
      | some b => if b ∈ s.compositor_held then (.returned b, s) else (.unspecified, s)
      | none => (.unspecified, s)

/-- Modelled from the spec: `compositor_release(buffer)`. A usage fault after
`end_responsibility` and when `buffer` is not checked out to the compositor;
otherwise the buffer goes back to the swapper: it stays the posted buffer when
it is the last-posted one and no newer frame has arrived, and becomes available
for the client otherwise. -/
def SwapperState.compositor_release (s : SwapperState) (buffer : Buffer) :
    SwapperResult Unit × SwapperState :=
  if s.ended then (.usage_fault, s)
  else if buffer ∈ s.compositor_held then
    if s.last_posted = some buffer ∧ s.posted = none then
      (.returned (),
        { s with compositor_held := s.compositor_held.erase buffer, posted := some buffer })
    else
      (.returned (),
        { s with compositor_held := s.compositor_held.erase buffer,
                 client_available := s.client_available ++ [buffer] })
  else (.usage_fault, s)

/-- Modelled from the spec: `force_client_completion()`: the one-way transition
to the client-disabled state. -/
def SwapperState.force_client_completion (s : SwapperState) : SwapperResult Unit × SwapperState :=
  (.returned (), { s with client_disabled := true })

/-- Modelled from the spec: `end_responsibility(buffers, original_size)`. Every
buffer the swapper owns (those available for the client and the posted one) is
moved to the end of the caller's collection `buffers`, the original pool size is
reported, and the swapper becomes inert. The result holds the collection and
the reported size. The spec does not say what a second call does. -/
def SwapperState.end_responsibility (s : SwapperState) (buffers : List Buffer) :
    SwapperResult (List Buffer × Nat) × SwapperState :=
  if s.ended then (.unspecified, s)
  else
    (.returned (buffers ++ (s.client_available ++ s.posted.toList), s.original_size),
      { s with client_available := [], posted := none, ended := true })

/-- One call on a swapper by a caller that carries on whatever the result was
(for `end_responsibility`, with an empty collection): the state after it. -/
def SwapperState.step (s : SwapperState) : SwapperCall → SwapperState
  | .client_acquire => s.client_acquire.2
  | .client_release b => (s.client_release b).2
  | .compositor_acquire => s.compositor_acquire.2
  | .compositor_release b => (s.compositor_release b).2
  | .force_client_completion => s.force_client_completion.2
  | .end_responsibility => (s.end_responsibility []).2

/-- A sequence of calls on a swapper, first call first. -/
def SwapperState.run (s : SwapperState) : List SwapperCall → SwapperState
  | [] => s
  | c :: cs => (s.step c).run cs

/-- The buffers a swapper owns or has handed out. -/
def SwapperState.pool (s : SwapperState) : List Buffer :=
  s.client_available ++ s.client_held ++ s.posted.toList ++ s.compositor_held

/-- The number of free buffers: those the swapper owns and no role holds. -/
def SwapperState.free_count (s : SwapperState) : Nat :=
  s.client_available.length + s.posted.toList.length

/-- A call that is one of the four acquire and release calls. -/
def SwapperCall.is_acquire_or_release : SwapperCall → Bool
  | .client_acquire => true
  | .client_release _ => true
  | .compositor_acquire => true
  | .compositor_release _ => true
  | .force_client_completion => false
  | .end_responsibility => false

/-- A call that cannot post a new frame or end the swapper: any call but
`client_release` and `end_responsibility`. -/
def SwapperCall.posts_nothing : SwapperCall → Bool
  | .client_release _ => false
  | .end_responsibility => false
  | _ => true

/-- Example buffers `B0`, `B1`, `B2` of the spec's scenarios. -/
def scenario_buffer (k : Nat) : Buffer := { id := k, size := ⟨6, 4⟩, pixel_format := ⟨1⟩ }

/-- The synchronous double-buffer swapper of Scenarios A and D. -/
def double_buffer_swapper : BufferSwapper :=
  .BufferSwapperMulti [scenario_buffer 0, scenario_buffer 1] 2

/-- The spin swapper of Scenario B. -/
def spin_swapper : BufferSwapper :=
  .BufferSwapperSpin [scenario_buffer 0, scenario_buffer 1, scenario_buffer 2] 3

/-- The frame the compositor is shown next: the posted buffer, or else the
last-posted buffer it still holds; none once the swapper has ended or while
nothing has been posted. -/
def SwapperState.current_frame (s : SwapperState) : Option Buffer :=
  if s.ended then none
  else
    match s.posted with
    | some b => some b
    | none =>
      match s.last_posted with
      | some b => if b ∈ s.compositor_held then some b else none
      | none => none

/-- A result that is a fault: the shutdown condition or the usage fault. -/
def SwapperResult.is_fault {α : Type} : SwapperResult α → Bool
  | .shutting_down => true
  | .usage_fault => true
  | _ => false

/-- Scenario A of the spec up to the second `client_acquire`. -/
def scenario_a : List SwapperCall :=
  [.client_acquire, .client_release (scenario_buffer 0), .compositor_acquire, .client_acquire]

/-- The code standing for an exception of class `std::runtime_error` in
`Fault.thrown`. -/
def std_runtime_error : Nat := 1

/-- A swapper for examples behind a bundle: its state counts the acquisitions
made, acquisition number `k` hands out `scenario_buffer k`, and releases change
nothing. -/
def counting_swapper : BufferSwapperMaster Nat where
  client_acquire := fun k => (.ok (scenario_buffer k), k + 1)
  client_release := fun k _ => (.ok (), k)
  compositor_acquire := fun k => (.ok (scenario_buffer k), k + 1)
  compositor_release := fun k _ => (.ok (), k)
  force_client_completion := fun k => (.ok (), k)
  end_responsibility := fun k => (.ok ([], 0), k)

/-- A bundle over `counting_swapper`. -/
def example_bundle : BufferBundleSurfaces Nat :=
  BufferBundleSurfaces.new counting_swapper example_properties

/-- A caller's operation on a buffer that fails with exception 5. -/
def failing_operation : Buffer → Except Fault Unit := fun _ => .error (.thrown 5)

end compositor

namespace graphics

namespace android

open compositor

/-- Modelled from the spec: what `ServerRenderWindow` observes of a buffer the
swapper hands to it, as its unit test `test_server_interpreter.cpp` sets it up:
the address returned by `native_buffer_handle()` (0 is the null pointer) and
the value returned by `id()`. -/
structure AcquiredBuffer where
  native_buffer_handle : Nat
  id : Nat
deriving DecidableEq, Repr

/-- Modelled from the spec: the swapper interface `ServerRenderWindow` is used
with in its unit test (`mock_swapper.h` is outside the sources at hand):
`compositor_acquire(buffer, id)` sets both of its reference arguments,
`compositor_release(id)` takes a buffer id. -/
structure DriverSwapper (S : Type) where
  compositor_acquire : S → (AcquiredBuffer × Nat) × S
  compositor_release : S → Nat → S

/-- A call made on the swapper of a render window. -/
inductive DriverSwapperCall where
  | compositor_acquire
  | compositor_release (id : Nat)
deriving DecidableEq, Repr

/-- The state of the swapper of a render window with the log of the calls made
on it so far (oldest first). -/
structure DriverWorld (S : Type) where
  state : S
  calls : List DriverSwapperCall

/-- Modelled from the spec: the class `ServerRenderWindow` of
`server_render_window.h`, which is outside the sources at hand; only its unit
test is. The window keeps, for every buffer the driver has and has not given
back, the native handle it was handed out under and the buffer's id, one
entry per handle. -/
structure ServerRenderWindow (S : Type) where
  swapper : DriverSwapper S
  buffers_in_driver : List (Nat × Nat)

/-- Modelled from the spec: the constructor `ServerRenderWindow(swapper)`,
outside the sources at hand: no buffer is with the driver. -/
def ServerRenderWindow.new {S : Type} (swapper : DriverSwapper S) : ServerRenderWindow S :=
  { swapper := swapper, buffers_in_driver := [] }

/-- The id recorded for the native handle `handle`, if there is an entry. -/
def retrieve (entries : List (Nat × Nat)) (handle : Nat) : Option Nat :=
  match entries.find? (fun e => e.1 = handle) with
  | some e => some e.2
  | none => none

/-- The entries without the one for the native handle `handle`. -/
def forget (entries : List (Nat × Nat)) (handle : Nat) : List (Nat × Nat) :=
  entries.filter (fun e => e.1 ≠ handle)

/-- Modelled from the spec: `ServerRenderWindow::driver_requests_buffer()`,
outside the sources at hand, after the tests `driver_wants_a_buffer` and
`driver_wants_a_few_buffer_`: one `compositor_acquire` on the swapper; the
buffer's native handle is returned and remembered with the buffer's `id()`.
The result is the handle, the window after the call and the world after the
call. -/
def ServerRenderWindow.driver_requests_buffer {S : Type} (self : ServerRenderWindow S)
    (w : DriverWorld S) : Nat × ServerRenderWindow S × DriverWorld S :=
  let acquired := self.swapper.compositor_acquire w.state
  let buffer := acquired.1.1
  (buffer.native_buffer_handle,
    { self with buffers_in_driver :=
        (buffer.native_buffer_handle, buffer.id)
          :: forget self.buffers_in_driver buffer.native_buffer_handle },
    ⟨acquired.2, w.calls ++ [.compositor_acquire]⟩)

/-- Modelled from the spec: `ServerRenderWindow::driver_returns_buffer(handle)`,
outside the sources at hand, after the tests
`driver_is_done_with_a_buffer_properly`, `driver_wants_a_few_buffer_` and
`throw_if_driver_returns_weird_buffer`: a handle that is not with the driver
throws `std::runtime_error` and nothing else happens; otherwise one
`compositor_release` with the id remembered for the handle, and the entry is
dropped. -/
def ServerRenderWindow.driver_returns_buffer {S : Type} (self : ServerRenderWindow S)
    (handle : Nat) (w : DriverWorld S) :
    Except Fault Unit × ServerRenderWindow S × DriverWorld S :=
  match retrieve self.buffers_in_driver handle with
  | none => (.error (.thrown std_runtime_error), self, w)
  | some id =>
    (.ok (), { self with buffers_in_driver := forget self.buffers_in_driver handle },
      ⟨self.swapper.compositor_release w.state id, w.calls ++ [.compositor_release id]⟩)

/-- A sequence of `driver_requests_buffer` calls, `n` of them: the handles
returned (first call first), the window and the world after the calls. -/
def ServerRenderWindow.request_buffers {S : Type} :
    Nat → ServerRenderWindow S → DriverWorld S → List Nat × ServerRenderWindow S × DriverWorld S
  | 0, self, w => ([], self, w)
  | n + 1, self, w =>
    let r := self.driver_requests_buffer w
    let rest := ServerRenderWindow.request_buffers n r.2.1 r.2.2
    (r.1 :: rest.1, rest.2)

/-- The buffers a swapper hands out on `n` successive `compositor_acquire`
calls from state `s`, first call first. -/
def DriverSwapper.acquired {S : Type} (swapper : DriverSwapper S) : Nat → S → List AcquiredBuffer
  | 0, _ => []
  | n + 1, s =>
    (swapper.compositor_acquire s).1.1 :: swapper.acquired n (swapper.compositor_acquire s).2

/-- The mock swapper of the test `driver_wants_a_few_buffer_`: its state counts
the acquisitions; acquisition `k` (0, 1, 2) hands out mock buffer `k + 1`, whose
native handle is `100 + k + 1` and whose `id()` is 4, 5, 6, and sets the id
argument to 5, 6, 4. -/
def mock_swapper : DriverSwapper Nat where
  compositor_acquire := fun k =>
    (({ native_buffer_handle := 100 + (k % 3 + 1), id := 4 + k % 3 }, 4 + (k + 1) % 3), k + 1)
  compositor_release := fun k _ => k

/-- A fresh world for `mock_swapper`. -/
def mock_world : DriverWorld Nat := ⟨0, []⟩

end android

/-- Modelled from the spec: the type `DisplayConfigurationMode` of
`display_configuration.h`, which is outside the sources at hand, as its unit
test `test_display_configuration.cpp` initialises it: a size and a refresh
rate. The refresh rate, a `double` in the test, is an exact rational here. -/
structure DisplayConfigurationMode where
  size : geometry.Size
  vrefresh_hz : Rat
deriving DecidableEq

/-- Modelled from the spec: the type `DisplayConfigurationOutput` of
`display_configuration.h`, which is outside the sources at hand, with the
members in the order of the initialiser `tmpl_output` of its unit test. Ids,
the output type and pixel formats are represented by their numeric values, the
position by its two coordinates. -/
structure DisplayConfigurationOutput where
  id : Nat
  card_id : Nat
  type : Nat
  pixel_formats : List geometry.PixelFormat
  modes : List DisplayConfigurationMode
  preferred_mode_index : Nat
  physical_size_mm : geometry.Size
  connected : Bool
  used : Bool
  top_left : Int × Int
  current_mode_index : Nat
  current_format_index : Nat
deriving DecidableEq

/-- Modelled from the spec: `operator==` on `DisplayConfigurationMode`, outside
the sources at hand: both members are compared. -/
def DisplayConfigurationMode.operator_eq (val1 val2 : DisplayConfigurationMode) : Bool :=
  val1.size == val2.size && val1.vrefresh_hz == val2.vrefresh_hz

/-- Element-wise comparison of two mode lists of the same length. -/
def modes_equal : List DisplayConfigurationMode → List DisplayConfigurationMode → Bool
  | [], [] => true
  | m1 :: rest1, m2 :: rest2 => m1.operator_eq m2 && modes_equal rest1 rest2
  | _, _ => false

/-- Modelled from the spec: `operator==` on `DisplayConfigurationOutput`, outside
the sources at hand: a member-wise comparison, the mode lists being compared by
their length and then mode by mode. -/
def DisplayConfigurationOutput.operator_eq (val1 val2 : DisplayConfigurationOutput) : Bool :=
  val1.id == val2.id &&
  val1.card_id == val2.card_id &&
  val1.type == val2.type &&
  val1.pixel_formats == val2.pixel_formats &&
  val1.physical_size_mm == val2.physical_size_mm &&
  val1.preferred_mode_index == val2.preferred_mode_index &&
  val1.connected == val2.connected &&
  val1.used == val2.used &&
  val1.top_left == val2.top_left &&
  val1.current_mode_index == val2.current_mode_index &&
  val1.current_format_index == val2.current_format_index &&
  val1.modes.length == val2.modes.length &&
  modes_equal val1.modes val2.modes

/-- Modelled from the spec: `operator!=` on `DisplayConfigurationOutput`, outside
the sources at hand: the negation of `operator==`. -/
def DisplayConfigurationOutput.operator_ne (val1 val2 : DisplayConfigurationOutput) : Bool :=
  !(val1.operator_eq val2)

/-- The output `tmpl_output` of `test_display_configuration.cpp` (lines 29-49);
`dvid` and `abgr_8888` stand as the codes 3 and 1. -/
def tmpl_output : DisplayConfigurationOutput :=
  { id := 3, card_id := 2, type := 3, pixel_formats := [geometry.PixelFormat.abgr_8888],
    modes := [⟨⟨10, 20⟩, 60⟩, ⟨⟨10, 20⟩, 59⟩, ⟨⟨15, 20⟩, 59⟩],
    preferred_mode_index := 0, physical_size_mm := ⟨10, 20⟩, connected := true, used := true,
    top_left := (0, 0), current_mode_index := 2, current_format_index := 0 }

end graphics

namespace frontend

open compositor

/-- Modelled from the spec: the interface `DisplayChanger` as the unit test
`test_unauthorized_changer.cpp` uses it (its header is outside the sources at
hand), over the changer's private state `D`. A configuration object and a
session are represented by their addresses, an expired session by `none`. -/
structure DisplayChanger (D : Type) where
  active_configuration : D → Nat × D
  configure : D → Option Nat → Nat → Except Fault Unit × D

/-- A call made on the wrapped display changer. -/
inductive DisplayChangerCall where
  | active_configuration
  | configure (session : Option Nat) (conf : Nat)
deriving DecidableEq, Repr

/-- The state of the wrapped display changer with the log of the calls made on
it so far (oldest first). -/
structure ChangerWorld (D : Type) where
  state : D
  calls : List DisplayChangerCall

/-- Modelled from the spec: the class `UnauthorizedDisplayChanger` of
`unauthorized_display_changer.h`, which is outside the sources at hand; only
its unit test is. It wraps a display changer. -/
structure UnauthorizedDisplayChanger (D : Type) where
  changer : DisplayChanger D

/-- Modelled from the spec: `UnauthorizedDisplayChanger::configure(session, conf)`,
outside the sources at hand, after the test `change_attempt`: it throws
`std::runtime_error` and asks nothing of the wrapped changer. -/
def UnauthorizedDisplayChanger.configure {D : Type} (_self : UnauthorizedDisplayChanger D)
    (_session : Option Nat) (_conf : Nat) (w : ChangerWorld D) :
    Except Fault Unit × ChangerWorld D :=
  (.error (.thrown std_runtime_error), w)

/-- Modelled from the spec: `UnauthorizedDisplayChanger::active_configuration()`,
outside the sources at hand, after the test `access_config`: it returns what
one `active_configuration()` call on the wrapped changer returns. -/
def UnauthorizedDisplayChanger.active_configuration {D : Type}
    (self : UnauthorizedDisplayChanger D) (w : ChangerWorld D) : Nat × ChangerWorld D :=
  ((self.changer.active_configuration w.state).1,
    ⟨(self.changer.active_configuration w.state).2, w.calls ++ [.active_configuration]⟩)

/-- The mock changer of the test `access_config`: `active_configuration()`
returns the configuration object at address 77. -/
def mock_display_changer : DisplayChanger Unit where
  active_configuration := fun d => (77, d)
  configure := fun d _ _ => (.ok (), d)

end frontend

/-- Modelled from the spec: the enumeration `MirPixelFormat` of the toolkit
header `mir_toolkit/common.h`, which is outside the sources at hand: the
enumerators the sources name, `mir_pixel_format_invalid`, whose value is 0, and
any other format by its numeric value. -/
inductive MirPixelFormat where
  | mir_pixel_format_invalid
  | mir_pixel_format_abgr_8888
  | mir_pixel_format_xbgr_8888
  | mir_pixel_format_argb_8888
  | mir_pixel_format_xrgb_8888
  | other (value : Nat)
deriving DecidableEq, Repr

namespace client

open compositor

/-- Modelled from the spec: the type `MirDisplayMode` of the client toolkit
headers, which are outside the sources at hand: the two members
`mir_connection_get_display_info` reads. -/
structure MirDisplayMode where
  vertical_resolution : Nat
  horizontal_resolution : Nat
deriving DecidableEq, Repr

/-- Modelled from the spec: the type `MirDisplayOutput` of the client toolkit
headers, outside the sources at hand: the members
`mir_connection_get_display_info` reads. The arrays `modes` and
`output_formats` are lists next to their element counts. -/
structure MirDisplayOutput where
  num_modes : Nat
  modes : List MirDisplayMode
  current_mode : Nat
  num_output_formats : Nat
  output_formats : List MirPixelFormat
  connected : Bool
  used : Bool
deriving DecidableEq, Repr

/-- Modelled from the spec: the type `MirDisplayConfiguration` of the client
toolkit headers, outside the sources at hand: the array `outputs` next to
`num_outputs`. -/
structure MirDisplayConfiguration where
  num_outputs : Nat
  outputs : List MirDisplayOutput
deriving DecidableEq, Repr

/-- Modelled from the spec: the type `MirDisplayInfo` of the client toolkit
headers, outside the sources at hand; the array `supported_pixel_format` has
`mir_supported_pixel_format_max` entries. -/
structure MirDisplayInfo where
  width : Nat
  height : Nat
  supported_pixel_format_items : Nat
  supported_pixel_format : List MirPixelFormat
deriving DecidableEq, Repr

/-- The condition of `mir_connection_api.cpp` lines 223-224: the output is
used, connected, and `current_mode < num_modes`. -/
def MirDisplayOutput.is_active (o : MirDisplayOutput) : Bool :=
  o.used && o.connected && decide (o.current_mode < o.num_modes)

/-- The loop of lines 221-229, at index `i` with `remaining` iterations to go:
the first output from `i` on that satisfies the condition, or none; reading
`outputs[i]` beyond the array is undefined behaviour. -/
def find_active_output (config : MirDisplayConfiguration) :
    Nat → Nat → Except Fault (Option MirDisplayOutput)
  | 0, _ => .ok none
  | remaining + 1, i =>
    match config.outputs[i]? with
    | none => .error .undefined_behaviour
    | some o =>
      if o.is_active then .ok (some o) else find_active_output config remaining (i + 1)

/-- The loop of lines 249-252, at index `i` with `remaining` iterations to go:
`supported_pixel_format[i] = state->output_formats[i]`; an index beyond either
array is undefined behaviour. -/
def copy_output_formats (state : MirDisplayOutput) :
    Nat → Nat → List MirPixelFormat → Except Fault (List MirPixelFormat)
  | 0, _, supported_pixel_format => .ok supported_pixel_format
  | remaining + 1, i, supported_pixel_format =>
    match state.output_formats[i]? with
    | none => .error .undefined_behaviour
    | some format =>
      if i < supported_pixel_format.length then
        copy_output_formats state remaining (i + 1) (supported_pixel_format.set i format)
      else .error .undefined_behaviour

/-- The effect of `memset(display_info, 0, sizeof(*display_info))`: every member
zero, every array entry the format of value 0. -/
def MirDisplayInfo.zeroed (display_info : MirDisplayInfo) : MirDisplayInfo :=
  { width := 0, height := 0, supported_pixel_format_items := 0,
    supported_pixel_format :=
      List.replicate display_info.supported_pixel_format.length
        MirPixelFormat.mir_pixel_format_invalid }

/-- The function `mir_connection_get_display_info(connection, display_info)`
(lines 207-253). `config` is what `mir_connection_create_display_config`
returned (possibly null), `mir_supported_pixel_format_max` the constant of that
name, declared outside the sources at hand; the result is `*display_info`
after the call. -/
def mir_connection_get_display_info (mir_supported_pixel_format_max : Nat)
    (config : Option MirDisplayConfiguration) (display_info : MirDisplayInfo) :
    Except Fault MirDisplayInfo :=
  match config with
  | none => .error .undefined_behaviour
  | some config =>
    if config.num_outputs < 1 then .ok display_info
    else
      match find_active_output config config.num_outputs 0 with
      | .error e => .error e
      | .ok none => .ok display_info.zeroed
      | .ok (some state) =>
        match state.modes[state.current_mode]? with
        | none => .error .undefined_behaviour
        | some mode =>
          let format_items :=
            if state.num_output_formats > mir_supported_pixel_format_max then
              mir_supported_pixel_format_max
            else state.num_output_formats
          match copy_output_formats state format_items 0
              display_info.supported_pixel_format with
          | .error e => .error e
          | .ok formats =>
            .ok { width := mode.horizontal_resolution, height := mode.vertical_resolution,
                  supported_pixel_format_items := format_items,
                  supported_pixel_format := formats }

/-- A configuration whose arrays have the lengths their counts say. -/
def MirDisplayConfiguration.well_formed (config : MirDisplayConfiguration) : Prop :=
  config.outputs.length = config.num_outputs ∧
  ∀ o ∈ config.outputs, o.modes.length = o.num_modes ∧
    o.output_formats.length = o.num_output_formats

/-- An example output: one mode of 1024 by 768, current, and three formats. -/
def example_output (connected used : Bool) : MirDisplayOutput :=
  { num_modes := 1, modes := [⟨768, 1024⟩], current_mode := 0, num_output_formats := 3,
    output_formats := [.mir_pixel_format_abgr_8888, .mir_pixel_format_xbgr_8888,
      .mir_pixel_format_argb_8888],
    connected := connected, used := used }

/-- An example configuration: a disconnected output, then an active one. -/
def example_configuration : MirDisplayConfiguration :=
  { num_outputs := 2, outputs := [example_output false true, example_output true true] }

/-- The configuration without outputs. -/
def empty_configuration : MirDisplayConfiguration := { num_outputs := 0, outputs := [] }

/-- An example `MirDisplayInfo` before the call, with a two-entry format
array. -/
def example_display_info : MirDisplayInfo :=
  { width := 7, height := 9, supported_pixel_format_items := 5,
    supported_pixel_format := [.other 11, .other 12] }

end client

namespace frontend

open compositor

/-! ## The XWayland window manager -/

/-- The event code `XCB_UNMAP_NOTIFY` of the X11 core protocol (`xcb/xproto.h`,
a library header). -/
def XCB_UNMAP_NOTIFY : Nat := 18

/-- The bits of the `int` value `~0x80` (two's complement, 32 bits): every bit
but bit 7. -/
def not_0x80 : Nat := 0xFFFFFF7F

/-- The members of `xcb_unmap_notify_event_t` that `handle_unmap_notify` reads;
`response_type` is a `uint8_t` whose bit 7 (`0x80`) marks an event sent by
`SendEvent` (a synthetic event). -/
structure xcb_unmap_notify_event_t where
  response_type : Nat
  event : Nat
  window : Nat
deriving DecidableEq, Repr

/-- A call the window manager makes on a surface or on the X connection. -/
inductive WmCall where
  | surface_unmap (surface : Nat)
  | surface_set_workspace (surface : Nat) (workspace : Int)
  | xcb_unmap_window (window : Nat)
  | xcb_configure_window (window : Nat) (value_mask : Nat) (value_list : List Nat)
  | xcb_flush
deriving DecidableEq, Repr

/-- The state of `XWaylandWM` that the handlers read: the `resource_id_mask` and
`resource_id_base` of the X setup, and the map `surfaces` from windows to
(possibly null) surfaces, a surface being represented by an identifier. -/
structure XWaylandWM where
  resource_id_mask : Nat
  resource_id_base : Nat
  surfaces : List (Nat × Option Nat)
deriving DecidableEq, Repr

/-- The member `XWaylandWM::is_ours(id)` (`xwayland_wm.cpp` lines 916-920):
`(id & ~setup->resource_id_mask) == setup->resource_id_base`, on 32 bits. -/
def XWaylandWM.is_ours (self : XWaylandWM) (id : Nat) : Bool :=
  (id &&& (0xFFFFFFFF ^^^ self.resource_id_mask)) == self.resource_id_base

/-- The member `XWaylandWM::get_wm_surface(xcb_window)` (lines 290-297): the
surface of the window, unless the window is unknown or its entry is null. -/
def XWaylandWM.get_wm_surface (self : XWaylandWM) (xcb_window : Nat) : Option Nat :=
  match self.surfaces.find? (fun e => e.1 = xcb_window) with
  | none => none
  | some e => e.2

/-- The dispatch of `XWaylandWM::handle_event` (lines 335-336 and 369-370): the
event goes to `handle_unmap_notify` when `response_type & ~0x80` is
`XCB_UNMAP_NOTIFY`. -/
def is_unmap_notify (event : xcb_unmap_notify_event_t) : Bool :=
  (event.response_type &&& not_0x80) == XCB_UNMAP_NOTIFY

/-- The member `XWaylandWM::handle_unmap_notify(event)` (lines 517-542), without
its debug logging: the calls it makes, appended to `calls`. -/
def XWaylandWM.handle_unmap_notify (self : XWaylandWM) (event : xcb_unmap_notify_event_t)
    (calls : List WmCall) : List WmCall :=
  if self.is_ours event.window then calls
  else if (event.response_type &&& not_0x80) ≠ 0 then calls
  else
    match self.get_wm_surface event.window with
    | some surface =>
      calls ++ [.surface_unmap surface, .surface_set_workspace surface (-1),
        .xcb_unmap_window event.window, .xcb_flush]
    | none => calls

/-- The values of `XCB_CONFIG_WINDOW_X`, `_Y`, `_WIDTH`, `_HEIGHT`,
`_BORDER_WIDTH`, `_SIBLING` and `_STACK_MODE` (`xcb/xproto.h`, a library
header). -/
def XCB_CONFIG_WINDOW_X : Nat := 1

def XCB_CONFIG_WINDOW_Y : Nat := 2

def XCB_CONFIG_WINDOW_WIDTH : Nat := 4

def XCB_CONFIG_WINDOW_HEIGHT : Nat := 8

def XCB_CONFIG_WINDOW_BORDER_WIDTH : Nat := 16

def XCB_CONFIG_WINDOW_SIBLING : Nat := 32

def XCB_CONFIG_WINDOW_STACK_MODE : Nat := 64

/-- The members of `xcb_configure_request_event_t` that
`handle_configure_request` reads; `x` and `y` are `int16_t`. -/
structure xcb_configure_request_event_t where
  stack_mode : Nat
  parent : Nat
  window : Nat
  sibling : Nat
  x : Int
  y : Int
  width : Nat
  height : Nat
  border_width : Nat
  value_mask : Nat
deriving DecidableEq, Repr

/-- Conversion of an integer to `uint32_t`, as `values.push_back(event->x)`
does. -/
def to_uint32 (v : Int) : Nat := (v % (2 : Int) ^ 32).toNat

/-- The vector `values` that `handle_configure_request` builds (lines 608-638):
an entry for each of x, y, width, height, sibling and stack mode whose bit is
set in `value_mask`, in this order. -/
def configure_request_values (event : xcb_configure_request_event_t) : List Nat :=
  (if event.value_mask &&& XCB_CONFIG_WINDOW_X ≠ 0 then [to_uint32 event.x] else []) ++
  (if event.value_mask &&& XCB_CONFIG_WINDOW_Y ≠ 0 then [to_uint32 event.y] else []) ++
  (if event.value_mask &&& XCB_CONFIG_WINDOW_WIDTH ≠ 0 then [event.width] else []) ++
  (if event.value_mask &&& XCB_CONFIG_WINDOW_HEIGHT ≠ 0 then [event.height] else []) ++
  (if event.value_mask &&& XCB_CONFIG_WINDOW_SIBLING ≠ 0 then [event.sibling] else []) ++
  (if event.value_mask &&& XCB_CONFIG_WINDOW_STACK_MODE ≠ 0 then [event.stack_mode] else [])

/-- The member `XWaylandWM::handle_configure_request(event)` (lines 594-645),
without its debug logging: the calls it makes, appended to `calls`. -/
def XWaylandWM.handle_configure_request (_self : XWaylandWM)
    (event : xcb_configure_request_event_t) (calls : List WmCall) : List WmCall :=
  if configure_request_values event ≠ [] then
    calls ++ [.xcb_configure_window event.window event.value_mask
      (configure_request_values event), .xcb_flush]
  else calls

/-- The value list the claim describes for a configure request: one entry per
bit set in `value_mask`, in ascending bit order (x, y, width, height, border
width, sibling, stack mode). -/
def values_per_mask_bit (event : xcb_configure_request_event_t) : List Nat :=
  (if event.value_mask &&& XCB_CONFIG_WINDOW_X ≠ 0 then [to_uint32 event.x] else []) ++
  (if event.value_mask &&& XCB_CONFIG_WINDOW_Y ≠ 0 then [to_uint32 event.y] else []) ++
  (if event.value_mask &&& XCB_CONFIG_WINDOW_WIDTH ≠ 0 then [event.width] else []) ++
  (if event.value_mask &&& XCB_CONFIG_WINDOW_HEIGHT ≠ 0 then [event.height] else []) ++
  (if event.value_mask &&& XCB_CONFIG_WINDOW_BORDER_WIDTH ≠ 0 then [event.border_width]
    else []) ++
  (if event.value_mask &&& XCB_CONFIG_WINDOW_SIBLING ≠ 0 then [event.sibling] else []) ++
  (if event.value_mask &&& XCB_CONFIG_WINDOW_STACK_MODE ≠ 0 then [event.stack_mode] else [])

/-- The atoms of `xwm->xcb_atom` that the `TYPE_NET_WM_STATE` case reads. -/
structure XcbAtoms where
  net_wm_state_fullscreen : Nat
  net_wm_state_maximized_horz : Nat
  net_wm_state_maximized_vert : Nat
deriving DecidableEq, Repr

/-- A property reply holding atoms: `value_len` and the array that
`xcb_get_property_value(reply)` points to. -/
structure AtomReply where
  value_len : Nat
  value : List Nat
deriving DecidableEq, Repr

/-- The members `fullscreen` and `maximized` of `XWaylandWMSurface`, with the
record of the indices at which the reply's atom array has been read. -/
structure NetWmState where
  fullscreen : Bool
  maximized : Bool
  indices_read : List Nat
deriving DecidableEq, Repr

/-- The loop of `xwayland_wm_surface.cpp` lines 254-260 from index `i` with
`remaining` iterations to go: `value[i]` is read and compared with the
fullscreen atom. The result is the state after the loop, or the fault of a read
beyond the array together with the state at that read. -/
def net_wm_state_loop (atoms : XcbAtoms) (reply : AtomReply) :
    Nat → Nat → NetWmState → Except Fault Unit × NetWmState
  | 0, _, s => (.ok (), s)
  | remaining + 1, i, s =>
    match reply.value[i]? with
    | none => (.error .undefined_behaviour, { s with indices_read := s.indices_read ++ [i] })
    | some atom =>
      net_wm_state_loop atoms reply remaining (i + 1)
        { s with
          fullscreen := if atom = atoms.net_wm_state_fullscreen && !s.fullscreen then true
            else s.fullscreen,
          indices_read := s.indices_read ++ [i] }

/-- One of the two tests of lines 261-268, made after the loop with `i` equal to
`value_len`: `value[i]` is read and compared with `atom`. -/
def net_wm_state_maximized_test (reply : AtomReply) (atom : Nat) (i : Nat) (s : NetWmState) :
    Except Fault Unit × NetWmState :=
  match reply.value[i]? with
  | none => (.error .undefined_behaviour, { s with indices_read := s.indices_read ++ [i] })
  | some a =>
    (.ok (),
      { s with
        maximized := if a = atom && !s.maximized then true else s.maximized,
        indices_read := s.indices_read ++ [i] })

/-- The case `TYPE_NET_WM_STATE` of `XWaylandWMSurface::read_properties` (lines
250-270): the loop over `i < value_len`, then the two tests of `value[i]` for
the maximized atoms, `i` being `value_len` by then. -/
def read_net_wm_state (atoms : XcbAtoms) (reply : AtomReply) (s : NetWmState) :
    Except Fault Unit × NetWmState :=
  match net_wm_state_loop atoms reply reply.value_len 0 s with
  | (.error e, s1) => (.error e, s1)
  | (.ok (), s1) =>
    match net_wm_state_maximized_test reply atoms.net_wm_state_maximized_horz
        reply.value_len s1 with
    | (.error e, s2) => (.error e, s2)
    | (.ok (), s2) =>
      net_wm_state_maximized_test reply atoms.net_wm_state_maximized_vert reply.value_len s2

/-- A window manager for examples: ids with base 0x200000 are its own; window 5
has surface 50. -/
def example_wm : XWaylandWM :=
  { resource_id_mask := 0x1FFFFF, resource_id_base := 0x200000, surfaces := [(5, some 50)] }

/-- Example atoms. -/
def example_atoms : XcbAtoms :=
  { net_wm_state_fullscreen := 300, net_wm_state_maximized_horz := 301,
    net_wm_state_maximized_vert := 302 }

/-- A configure request for window 5 that selects x and the border width. -/
def border_width_request : xcb_configure_request_event_t :=
  { stack_mode := 0, parent := 1, window := 5, sibling := 0, x := 3, y := 4, width := 100,
    height := 80, border_width := 2,
    value_mask := XCB_CONFIG_WINDOW_X ||| XCB_CONFIG_WINDOW_BORDER_WIDTH }

end frontend

namespace miral

open compositor

/-! ## The display configuration options -/

/-- The type `geometry::Point`: two integer coordinates. -/
structure Point where
  x : Int
  y : Int
deriving DecidableEq, Repr

/-- Modelled from the spec: the enumeration `MirPowerMode` of the toolkit
headers, which are outside the sources at hand. -/
inductive MirPowerMode where
  | mir_power_mode_on
  | mir_power_mode_standby
  | mir_power_mode_suspend
  | mir_power_mode_off
deriving DecidableEq, Repr

/-- Modelled from the spec: the enumeration `MirOrientation` of the toolkit
headers, which are outside the sources at hand. -/
inductive MirOrientation where
  | mir_orientation_normal
  | mir_orientation_left
  | mir_orientation_inverted
  | mir_orientation_right
deriving DecidableEq, Repr

/-- Modelled from the spec: the type `mg::UserDisplayConfigurationOutput` of
`display_configuration.h`, which is outside the sources at hand: the members
that `display_configuration_option.cpp` reads or writes. -/
structure UserDisplayConfigurationOutput where
  id : Nat
  card_id : Nat
  type : Nat
  pixel_formats : List MirPixelFormat
  modes : List graphics.DisplayConfigurationMode
  preferred_mode_index : Nat
  connected : Bool
  used : Bool
  top_left : Point
  current_mode_index : Nat
  current_format : MirPixelFormat
  power_mode : MirPowerMode
  orientation : MirOrientation
deriving DecidableEq

/-- The function `contains_alpha(format)` (lines 60-64). -/
def contains_alpha (format : MirPixelFormat) : Bool :=
  format == .mir_pixel_format_abgr_8888 || format == .mir_pixel_format_argb_8888

/-- The class `PixelFormatSelector` (lines 50-58): the base policy, represented
by what its `apply_to` does to the outputs of a configuration, and
`with_alpha`. -/
structure PixelFormatSelector where
  base_policy : List UserDisplayConfigurationOutput → List UserDisplayConfigurationOutput
  with_alpha : Bool

/-- The body of the lambda of `PixelFormatSelector::apply_to` (lines 150-169)
for one output, without its printing: an output that is not connected or not
used is left alone; otherwise `find_if` looks for the first pixel format whose
`contains_alpha` equals `with_alpha` and, when there is one, `current_format`
becomes that format. -/
def PixelFormatSelector.select_format (self : PixelFormatSelector)
    (conf_output : UserDisplayConfigurationOutput) : UserDisplayConfigurationOutput :=
  if !conf_output.connected || !conf_output.used then conf_output
  else
    match conf_output.pixel_formats.find? (fun format => contains_alpha format == self.with_alpha)
    with
    | none => conf_output
    | some pos => { conf_output with current_format := pos }

/-- The member `PixelFormatSelector::apply_to(conf)` (lines 74-171):
`base_policy->apply_to(conf)`, then the lambda on each output;
`for_each_output`, declared outside the sources at hand, visits every output of
the configuration in order. -/
def PixelFormatSelector.apply_to (self : PixelFormatSelector)
    (conf : List UserDisplayConfigurationOutput) : List UserDisplayConfigurationOutput :=
  (self.base_policy conf).map self.select_format

/-- The type `StaticDisplayConfigurationPolicy::Config` (line 183): an optional
position and an optional size. -/
structure Config where
  position : Option Point
  size : Option geometry.Size
deriving DecidableEq, Repr

/-- The class `StaticDisplayConfigurationPolicy` (lines 175-186): the map
`config` from (card id, output id) to `Config`, one entry per key. -/
structure StaticDisplayConfigurationPolicy where
  config : List ((Nat × Nat) × Config)
deriving DecidableEq, Repr

/-- The constructor `StaticDisplayConfigurationPolicy(filename)` (lines
200-209), without its `puts`: the dummy data. -/
def StaticDisplayConfigurationPolicy.new : StaticDisplayConfigurationPolicy :=
  { config := [((0, 1), ⟨some ⟨0, 0⟩, some ⟨1024, 768⟩⟩),
               ((0, 2), ⟨some ⟨1024, 0⟩, some ⟨1024, 768⟩⟩)] }

/-- The expression `config[Id{card_id, id}]` (line 221): the entry of the key,
a default-constructed entry being inserted when the key is new. The result is
the entry and the map after the access. -/
def StaticDisplayConfigurationPolicy.config_at (self : StaticDisplayConfigurationPolicy)
    (key : Nat × Nat) : Config × StaticDisplayConfigurationPolicy :=
  match self.config.find? (fun e => e.1 = key) with
  | some e => (e.2, self)
  | none => (⟨none, none⟩, { config := self.config ++ [(key, ⟨none, none⟩)] })

/-- The value `std::numeric_limits<size_t>::max()`, for a 64-bit `size_t`. -/
def size_t_max : Nat := 2 ^ 64 - 1

/-- The function `select_mode_index(mode_index, modes)` (lines 188-197). -/
def select_mode_index (mode_index : Nat) (modes : List graphics.DisplayConfigurationMode) :
    Nat :=
  if modes.isEmpty then size_t_max
  else if mode_index ≥ modes.length then 0
  else mode_index

/-- The loop of lines 237-243 over the modes from position `index` on:
whenever a mode has the wanted size, `current_mode_index` becomes its
position. -/
def select_mode_of_size (size : geometry.Size) :
    List graphics.DisplayConfigurationMode → Nat → Nat → Nat
  | [], _, current_mode_index => current_mode_index
  | mode :: rest, index, current_mode_index =>
    select_mode_of_size size rest (index + 1)
      (if mode.size = size then index else current_mode_index)

/-- The body of the lambda of `StaticDisplayConfigurationPolicy::apply_to`
(lines 215-250) for one output: the output and the policy after it. -/
def StaticDisplayConfigurationPolicy.apply_to_output (self : StaticDisplayConfigurationPolicy)
    (conf_output : UserDisplayConfigurationOutput) :
    UserDisplayConfigurationOutput × StaticDisplayConfigurationPolicy :=
  if conf_output.connected && decide (conf_output.modes.length > 0) then
    let conf := (self.config_at (conf_output.card_id, conf_output.id)).1
    let preferred_mode_index :=
      select_mode_index conf_output.preferred_mode_index conf_output.modes
    ({ conf_output with
        used := true,
        power_mode := .mir_power_mode_on,
        orientation := .mir_orientation_normal,
        top_left := match conf.position with
          | some position => position
          | none => ⟨0, 0⟩,
        current_mode_index := match conf.size with
          | some size => select_mode_of_size size conf_output.modes 0 preferred_mode_index
          | none => preferred_mode_index },
      (self.config_at (conf_output.card_id, conf_output.id)).2)
  else
    ({ conf_output with used := false, power_mode := .mir_power_mode_off }, self)

/-- The member `StaticDisplayConfigurationPolicy::apply_to(conf)` (lines
211-252): the lambda on each output in order; the outputs and the policy after
the call. -/
def StaticDisplayConfigurationPolicy.apply_to (self : StaticDisplayConfigurationPolicy) :
    List UserDisplayConfigurationOutput →
      List UserDisplayConfigurationOutput × StaticDisplayConfigurationPolicy
  | [] => ([], self)
  | conf_output :: rest =>
    ((self.apply_to_output conf_output).1
        :: ((self.apply_to_output conf_output).2.apply_to rest).1,
      ((self.apply_to_output conf_output).2.apply_to rest).2)

/-- An example output: card 0, output 1, the given connection state and modes,
formats xbgr then argb then abgr, current format xbgr. -/
def example_output (connected used : Bool) (modes : List graphics.DisplayConfigurationMode) :
    UserDisplayConfigurationOutput :=
  { id := 1, card_id := 0, type := 3,
    pixel_formats := [.mir_pixel_format_xbgr_8888, .mir_pixel_format_argb_8888,
      .mir_pixel_format_abgr_8888],
    modes := modes, preferred_mode_index := 7, connected := connected, used := used,
    top_left := ⟨5, 5⟩, current_mode_index := 9,
    current_format := .mir_pixel_format_xbgr_8888,
    power_mode := .mir_power_mode_standby, orientation := .mir_orientation_left }

/-- Two example modes: 800 by 600, then 1024 by 768. -/
def example_modes : List graphics.DisplayConfigurationMode :=
  [⟨⟨800, 600⟩, 60⟩, ⟨⟨1024, 768⟩, 60⟩]

/-- A selector over the identity base policy. -/
def example_selector (with_alpha : Bool) : PixelFormatSelector :=
  { base_policy := id, with_alpha := with_alpha }

end miral

namespace graphics

namespace rpi

open compositor

/-! ## The DispmanX display buffer -/

/-- The type `glm::mat4`: its sixteen components, column by column, as exact
rationals. -/
structure Mat4 where
  components : List Rat
deriving DecidableEq

/-- The matrix `glm::mat4{1}`: the identity. -/
def Mat4.identity : Mat4 := ⟨[1, 0, 0, 0, 0, 1, 0, 0, 0, 0, 1, 0, 0, 0, 0, 1]⟩

/-- What `display_buffer.cpp` observes of a `mg::Buffer`: whether
`dynamic_cast<DispmanXBuffer const*>` succeeds (then the resource handle the
buffer converts to), whether `dynamic_cast<PixelSource*>` succeeds (then its
stride), its size and its pixel format. -/
structure Buffer where
  as_dispmanx_buffer : Option Nat
  as_pixel_source : Option Nat
  size : geometry.Size
  pixel_format : MirPixelFormat
deriving DecidableEq

/-- The type `geometry::Rectangle`: the top-left corner and the size. -/
structure Rectangle where
  top_left_x : Int
  top_left_y : Int
  size : geometry.Size
deriving DecidableEq

/-- What `display_buffer.cpp` observes of a `mg::Renderable`: its
transformation, its buffer and its screen position. Its alpha, a floating-point
number that only enters the alpha flags of an element, is left out. -/
structure Renderable where
  transformation : Mat4
  buffer : Buffer
  screen_position : Rectangle
deriving DecidableEq

/-- The type `VC_RECT_T` as `vc_dispmanx_rect_set` fills it. -/
structure VC_RECT_T where
  x : Nat
  y : Nat
  width : Nat
  height : Nat
deriving DecidableEq, Repr

/-- A call of the DispmanX library (a collaborator outside the repository);
the alpha flags of `vc_dispmanx_element_add` are not recorded. -/
inductive DispmanxCall where
  | vc_dispmanx_update_start (priority : Nat)
  | vc_dispmanx_element_remove (update element : Nat)
  | vc_dispmanx_resource_create (type width height : Nat)
  | vc_dispmanx_resource_write_data (handle type stride : Nat) (rect : VC_RECT_T)
  | vc_dispmanx_element_add (update display layer : Nat) (dest_rect : VC_RECT_T)
      (src : Nat) (src_rect : VC_RECT_T)
  | vc_dispmanx_update_submit_sync (update : Nat)
deriving DecidableEq, Repr

/-- The DispmanX library over its private state `σ`: every call returns a value
(a handle or a status) and may change the state. -/
structure DispmanX (σ : Type) where
  call : σ → DispmanxCall → Nat × σ

/-- The state of the DispmanX library with the log of the calls made so far
(oldest first). -/
structure DispmanxWorld (σ : Type) where
  state : σ
  calls : List DispmanxCall

/-- One call of the DispmanX library: its value and the world after it. -/
def DispmanX.invoke {σ : Type} (dx : DispmanX σ) (w : DispmanxWorld σ) (c : DispmanxCall) :
    Nat × DispmanxWorld σ :=
  ((dx.call w.state c).1, ⟨(dx.call w.state c).2, w.calls ++ [c]⟩)

/-- The handle `DISPMANX_NO_HANDLE` of the DispmanX headers. -/
def DISPMANX_NO_HANDLE : Nat := 0

/-- The image type `VC_IMAGE_XRGB8888` of the VideoCore headers; only its
identity matters. -/
def VC_IMAGE_XRGB8888 : Nat := 44

/-- The members of `rpi::DisplayBuffer` that `overlay` reads or writes. -/
structure DisplayBuffer where
  display_handle : Nat
  current_elements : List Nat
deriving DecidableEq, Repr

/-- The function `is_dispmanx_capable_buffer(buffer)` (lines 149-154). -/
def is_dispmanx_capable_buffer (buffer : Buffer) : Bool :=
  buffer.as_dispmanx_buffer.isSome || buffer.as_pixel_source.isSome

/-- The function `transform_is_representable(transform)` (lines 156-161). -/
def transform_is_representable (transform : Mat4) : Bool :=
  transform == Mat4.identity

/-- The function `renderable_is_overlay_candidate(renderable)` (lines 163-168). -/
def renderable_is_overlay_candidate (renderable : Renderable) : Bool :=
  transform_is_representable renderable.transformation &&
    is_dispmanx_capable_buffer renderable.buffer

/-- The function `vc_image_type_from_mir_pf(format)` (lines 170-179). -/
def vc_image_type_from_mir_pf (format : MirPixelFormat) : Except Fault Nat :=
  match format with
  | .mir_pixel_format_xbgr_8888 => .ok VC_IMAGE_XRGB8888
  | _ => .error (.thrown std_runtime_error)

/-- Conversion to `uint32_t`, as `as_uint32_t()` does. -/
def as_uint32_t (v : Int) : Nat := (v % (2 : Int) ^ 32).toNat

/-- The function `dispmanx_handle_for_renderable(renderable)` (lines 181-219): a
`DispmanXBuffer` gives its resource handle; a `PixelSource` gets a resource
created and its pixels written to it (`read` runs the callback once); any other
buffer throws. -/
def dispmanx_handle_for_renderable {σ : Type} (dx : DispmanX σ) (renderable : Renderable)
    (w : DispmanxWorld σ) : Except Fault Nat × DispmanxWorld σ :=
  match renderable.buffer.as_dispmanx_buffer with
  | some dispmanx_buffer => (.ok dispmanx_buffer, w)
  | none =>
    match renderable.buffer.as_pixel_source with
    | some stride =>
      match vc_image_type_from_mir_pf renderable.buffer.pixel_format with
      | .error e => (.error e, w)
      | .ok vc_format =>
        let width := renderable.buffer.size.width % 2 ^ 32
        let height := renderable.buffer.size.height % 2 ^ 32
        let created := dx.invoke w (.vc_dispmanx_resource_create vc_format width height)
        (.ok created.1,
          (dx.invoke created.2
            (.vc_dispmanx_resource_write_data created.1 vc_format stride
              ⟨0, 0, width, height⟩)).2)
    | none => (.error (.thrown std_runtime_error), w)

/-- The loop of lines 237-240: `vc_dispmanx_element_remove` for every current
element. -/
def remove_elements {σ : Type} (dx : DispmanX σ) (update_handle : Nat) :
    List Nat → DispmanxWorld σ → DispmanxWorld σ
  | [], w => w
  | element :: rest, w =>
    remove_elements dx update_handle rest
      (dx.invoke w (.vc_dispmanx_element_remove update_handle element)).2

/-- The destination rectangle of lines 250-255. -/
def dest_rect_of (renderable : Renderable) : VC_RECT_T :=
  ⟨as_uint32_t renderable.screen_position.top_left_x,
    as_uint32_t renderable.screen_position.top_left_y,
    renderable.screen_position.size.width % 2 ^ 32,
    renderable.screen_position.size.height % 2 ^ 32⟩

/-- The source rectangle of lines 258-262, in 16.16 fixed point on 32 bits. -/
def src_rect_of (renderable : Renderable) : VC_RECT_T :=
  ⟨0, 0, (renderable.buffer.size.width % 2 ^ 32 * 2 ^ 16) % 2 ^ 32,
    (renderable.buffer.size.height % 2 ^ 32 * 2 ^ 16) % 2 ^ 32⟩

/-- The loop of lines 244-286 at `layer` with `remaining` iterations to go: the
resource handle of `renderlist[layer]` is obtained, the element is added at
`layer` and pushed to `current_elements`, and a `DISPMANX_NO_HANDLE` element
throws. The result carries `current_elements` and the world as they are when
the loop ends or throws. The counter `layer` is a `uint32_t`; a render list is
taken to have fewer than 2^32 entries, so it does not wrap. -/
def add_renderables {σ : Type} (dx : DispmanX σ) (display_handle update_handle : Nat)
    (renderlist : List Renderable) :
    Nat → Nat → List Nat → DispmanxWorld σ → Except Fault Unit × List Nat × DispmanxWorld σ
  | 0, _, current_elements, w => (.ok (), current_elements, w)
  | remaining + 1, layer, current_elements, w =>
    match renderlist[layer]? with
    | none => (.error .undefined_behaviour, current_elements, w)
    | some renderable =>
      match dispmanx_handle_for_renderable dx renderable w with
      | (.error e, w1) => (.error e, current_elements, w1)
      | (.ok handle, w1) =>
        let added := dx.invoke w1
          (.vc_dispmanx_element_add update_handle display_handle layer
            (dest_rect_of renderable) handle (src_rect_of renderable))
        if added.1 = DISPMANX_NO_HANDLE then
          (.error (.thrown std_runtime_error), current_elements ++ [added.1], added.2)
        else
          add_renderables dx display_handle update_handle renderlist remaining (layer + 1)
            (current_elements ++ [added.1]) added.2

/-- The member `rpi::DisplayBuffer::overlay(renderlist)` (lines 222-291): the
value returned or the exception thrown, the display buffer and the world after
the call. -/
def DisplayBuffer.overlay {σ : Type} (self : DisplayBuffer) (dx : DispmanX σ)
    (renderlist : List Renderable) (w : DispmanxWorld σ) :
    Except Fault Bool × DisplayBuffer × DispmanxWorld σ :=
  if !renderlist.all renderable_is_overlay_candidate then (.ok false, self, w)
  else
    let started := dx.invoke w (.vc_dispmanx_update_start 0)
    let removed := remove_elements dx started.1 self.current_elements started.2
    match add_renderables dx self.display_handle started.1 renderlist renderlist.length 0 []
        removed with
    | (.error e, current_elements, w1) =>
      (.error e, { self with current_elements := current_elements }, w1)
    | (.ok (), current_elements, w1) =>
      (.ok true, { self with current_elements := current_elements },
        (dx.invoke w1 (.vc_dispmanx_update_submit_sync started.1)).2)

/-- The layer and destination rectangle of every `vc_dispmanx_element_add` call
of a log, in the order of the calls. -/
def added_layers : List DispmanxCall → List (Nat × VC_RECT_T)
  | [] => []
  | .vc_dispmanx_element_add _ _ layer dest_rect _ _ :: rest =>
    (layer, dest_rect) :: added_layers rest
  | _ :: rest => added_layers rest

/-- The layers a render list asks for: the renderable at position `i` of the
list at layer `first + i`, with its destination rectangle. -/
def layers_of (first : Nat) : List Renderable → List (Nat × VC_RECT_T)
  | [] => []
  | renderable :: rest => (first, dest_rect_of renderable) :: layers_of (first + 1) rest

/-- Whether a call is a `vc_dispmanx_element_add`. -/
def DispmanxCall.is_element_add : DispmanxCall → Bool
  | .vc_dispmanx_element_add _ _ _ _ _ _ => true
  | _ => false

/-- A DispmanX library for examples: its state counts the calls made, and call
number `k` returns `k + 1`. -/
def counting_dispmanx : DispmanX Nat where
  call := fun k _ => (k + 1, k + 1)

/-- A fresh world for `counting_dispmanx`. -/
def fresh_dispmanx_world : DispmanxWorld Nat := ⟨0, []⟩

/-- An example renderable: identity transformation, at (10, 20), with a
pixel-source buffer of the given format. -/
def pixel_source_renderable (format : MirPixelFormat) : Renderable :=
  { transformation := Mat4.identity,
    buffer := { as_dispmanx_buffer := none, as_pixel_source := some 256, size := ⟨64, 32⟩,
                pixel_format := format },
    screen_position := ⟨10, 20, ⟨64, 32⟩⟩ }

/-- An example renderable: identity transformation, at (0, 0), with a DispmanX
buffer whose resource handle is 900. -/
def dispmanx_renderable : Renderable :=
  { transformation := Mat4.identity,
    buffer := { as_dispmanx_buffer := some 900, as_pixel_source := none, size := ⟨64, 32⟩,
                pixel_format := .mir_pixel_format_argb_8888 },
    screen_position := ⟨0, 0, ⟨64, 32⟩⟩ }

/-- An example display buffer showing one element, 7. -/
def example_display_buffer : DisplayBuffer := { display_handle := 1, current_elements := [7] }

end rpi

end graphics

namespace compositor

open geometry

/-! ## Helper lemmas on the allocation loop -/

theorem new_some_eq {σ : Type} {a : GraphicBufferAllocator σ} {n : Int} {f : SwapperFactory σ}
    (hf : SwapperFactory.new (some a) n = .ok f) :
    f = { gr_allocator := some a, number_of_buffers := n } := by
  simp only [SwapperFactory.new, Except.ok.injEq] at hf
  exact hf.symm

theorem fill_buffer_list_loop_ok {σ : Type} (a : GraphicBufferAllocator σ) (n : Int)
    (p : BufferProperties) (bs : List Buffer) :
    ∀ (list : List Buffer) (w : AllocatorWorld σ) (t : σ), AllocRun a p w.state bs t →
      fill_buffer_list_loop { gr_allocator := some a, number_of_buffers := n } p bs.length list w
        = (.ok (list ++ bs), ⟨t, w.alloc_buffer_calls ++ List.replicate bs.length p⟩) := by
  induction bs with
  | nil =>
    intro list w t h
    cases h
    simp [fill_buffer_list_loop]
  | cons b bs ih =>
    intro list w t h
    cases h with
    | step h1 h2 =>
      simp only [List.length_cons, fill_buffer_list_loop, call_alloc_buffer, h1]
      rw [ih (list ++ [b]) ⟨_, w.alloc_buffer_calls ++ [p]⟩ t h2]
      simp [List.replicate_succ]

theorem fill_buffer_list_loop_fail {σ : Type} (a : GraphicBufferAllocator σ) (n : Int)
    (p : BufferProperties) (bs : List Buffer) (e : Nat) (s1 s2 : σ)
    (hfail : a.alloc_buffer s1 p = (.error e, s2)) :
    ∀ (more : Nat) (list : List Buffer) (w : AllocatorWorld σ), AllocRun a p w.state bs s1 →
      fill_buffer_list_loop { gr_allocator := some a, number_of_buffers := n } p
          (bs.length + 1 + more) list w
        = (.error (.thrown e),
            ⟨s2, w.alloc_buffer_calls ++ List.replicate (bs.length + 1) p⟩) := by
  induction bs with
  | nil =>
    intro more list w h
    cases h
    have hk : ([] : List Buffer).length + 1 + more = more + 1 := by simp; omega
    rw [hk]
    simp [fill_buffer_list_loop, call_alloc_buffer, hfail]
  | cons b bs ih =>
    intro more list w h
    cases h with
    | step h1 h2 =>
      have hk : (b :: bs).length + 1 + more = (bs.length + 1 + more) + 1 := by
        simp only [List.length_cons]; omega
      rw [hk]
      simp only [fill_buffer_list_loop, call_alloc_buffer, h1]
      rw [ih more (list ++ [b]) ⟨_, w.alloc_buffer_calls ++ [p]⟩ h2]
      simp [List.replicate_succ]

theorem int_to_size_t_natCast (k : Nat) (hk : k < 2 ^ 64) : int_to_size_t (k : Int) = k := by
  unfold int_to_size_t
  have h : ((k : Int) % (2 : Int) ^ 64) = (k : Int) := by
    apply Int.emod_eq_of_lt
    · exact Int.natCast_nonneg k
    · exact_mod_cast hk
  rw [h]
  simp

theorem example_run (fail_at : Nat) (hfa : 3 ≤ fail_at) :
    AllocRun (counting_allocator fail_at) example_properties 0
      [example_buffer 0, example_buffer 1, example_buffer 2] 3 := by
  have h : ∀ k, k < 3 → (counting_allocator fail_at).alloc_buffer k example_properties
      = (.ok (example_buffer k), k + 1) := by
    intro k hk
    have hne : k ≠ fail_at := by omega
    simp [counting_allocator, hne, example_properties, example_buffer]
  exact .step (h 0 (by omega)) (.step (h 1 (by omega)) (.step (h 2 (by omega)) (.done 3)))

/-! ## The swapper factory -/

theorem create_async_swapper_new_buffers_ok {σ : Type}
    (a : GraphicBufferAllocator σ) (n : Int)
    (actual requested : BufferProperties) (w : AllocatorWorld σ)
    (b0 b1 b2 : Buffer) (t : σ)
    (hrun : AllocRun a requested w.state [b0, b1, b2] t) :
    SwapperFactory.create_async_swapper_new_buffers
        { gr_allocator := some a, number_of_buffers := n } actual requested w
      = (.ok (.BufferSwapperSpin [b0, b1, b2] 3),
          { size := b0.size, format := b0.pixel_format, usage := requested.usage },
          ⟨t, w.alloc_buffer_calls ++ [requested, requested, requested]⟩) := by
  have h := fill_buffer_list_loop_ok a n requested [b0, b1, b2] [] w t hrun
  simp only [List.length_cons, List.length_nil, List.nil_append] at h
  have h3 : int_to_size_t async_buffer_count = 3 := by
    simpa [async_buffer_count] using int_to_size_t_natCast 3 (by norm_num)
  have ht : async_buffer_count.toNat = 3 := by simp [async_buffer_count]
  simp only [SwapperFactory.create_async_swapper_new_buffers, SwapperFactory.fill_buffer_list,
    ht]
  simp only [Nat.zero_add, Nat.reduceAdd] at h
  rw [h]
  simp [h3, List.replicate]

/-- C1: for a factory built by the constructor with any `number_of_buffers`,
when the three allocations succeed, `create_async_swapper_new_buffers` makes
exactly three `alloc_buffer` calls, each with the requested properties, and
returns the spin swapper over exactly the three buffers returned, in order,
with buffer count 3. -/
theorem create_async_swapper_new_buffers_allocates_three {σ : Type}
    (a : GraphicBufferAllocator σ) (n : Int) (f : SwapperFactory σ)
    (hf : SwapperFactory.new (some a) n = .ok f)
    (actual requested : BufferProperties) (w : AllocatorWorld σ)
    (b0 b1 b2 : Buffer) (t : σ)
    (hrun : AllocRun a requested w.state [b0, b1, b2] t) :
    f.create_async_swapper_new_buffers actual requested w
      = (.ok (.BufferSwapperSpin [b0, b1, b2] 3),
          { size := b0.size, format := b0.pixel_format, usage := requested.usage },
          ⟨t, w.alloc_buffer_calls ++ [requested, requested, requested]⟩) := by
  rw [new_some_eq hf]
  exact create_async_swapper_new_buffers_ok a n actual requested w b0 b1 b2 t hrun

theorem create_async_swapper_new_buffers_allocates_three_witness :
    SwapperFactory.new (some (counting_allocator 100)) 2 = .ok (example_factory 100 2) ∧
    (example_factory 100 2).create_async_swapper_new_buffers stale_properties
        example_properties fresh_world
      = (.ok (.BufferSwapperSpin [example_buffer 0, example_buffer 1, example_buffer 2] 3),
          { size := ⟨6, 4⟩, format := ⟨1⟩, usage := ⟨2⟩ },
          ⟨3, [example_properties, example_properties, example_properties]⟩) :=
  ⟨rfl, create_async_swapper_new_buffers_allocates_three (counting_allocator 100) 2
    (example_factory 100 2) rfl stale_properties example_properties fresh_world
    (example_buffer 0) (example_buffer 1) (example_buffer 2) 3
    (example_run 100 (by decide))⟩

/-- C2, as stated, fails: a factory configured with `number_of_buffers = 2`
makes three `alloc_buffer` calls, not two, in
`create_async_swapper_new_buffers`. -/
theorem alloc_buffer_calls_async_not_number_of_buffers :
    SwapperFactory.new (some (counting_allocator 100)) 2 = .ok (example_factory 100 2) ∧
    (example_factory 100 2).number_of_buffers = 2 ∧
    ((example_factory 100 2).create_async_swapper_new_buffers stale_properties
        example_properties fresh_world).2.2.alloc_buffer_calls
      = [example_properties, example_properties, example_properties] ∧
    ((((example_factory 100 2).create_async_swapper_new_buffers stale_properties
        example_properties fresh_world).2.2.alloc_buffer_calls.length : Nat) : Int)
      ≠ (example_factory 100 2).number_of_buffers := by
  have h : (example_factory 100 2).create_async_swapper_new_buffers stale_properties
      example_properties fresh_world = _ :=
    create_async_swapper_new_buffers_ok (counting_allocator 100) 2 stale_properties
      example_properties fresh_world (example_buffer 0) (example_buffer 1) (example_buffer 2) 3
      (example_run 100 (by decide))
  rw [h]
  refine ⟨rfl, rfl, rfl, ?_⟩
  simp [fresh_world, example_factory]

/-- C2, amended: for a factory configured with `number_of_buffers = n`, when no
allocation fails, `create_sync_swapper_new_buffers` makes exactly `n`
`alloc_buffer` calls (none when `n` is negative) and
`create_async_swapper_new_buffers` makes exactly 3, whatever `n` is; every
call carries the requested properties. -/
theorem alloc_buffer_call_counts {σ : Type}
    (a : GraphicBufferAllocator σ) (n : Int) (f : SwapperFactory σ)
    (hf : SwapperFactory.new (some a) n = .ok f)
    (actual requested : BufferProperties) (w : AllocatorWorld σ) :
    (∀ (bs : List Buffer) (t : σ), AllocRun a requested w.state bs t → bs.length = n.toNat →
      (f.create_sync_swapper_new_buffers actual requested w).2.2.alloc_buffer_calls
        = w.alloc_buffer_calls ++ List.replicate n.toNat requested) ∧
    (∀ (bs : List Buffer) (t : σ), AllocRun a requested w.state bs t → bs.length = 3 →
      (f.create_async_swapper_new_buffers actual requested w).2.2.alloc_buffer_calls
        = w.alloc_buffer_calls ++ List.replicate 3 requested) := by
  rw [new_some_eq hf]
  constructor
  · intro bs t hrun hlen
    have h := fill_buffer_list_loop_ok a n requested bs [] w t hrun
    rw [hlen] at h
    simp only [SwapperFactory.create_sync_swapper_new_buffers, SwapperFactory.fill_buffer_list]
    rw [h]
    cases bs <;> simp
  · intro bs t hrun hlen
    have h := fill_buffer_list_loop_ok a n requested bs [] w t hrun
    rw [hlen] at h
    have ht : async_buffer_count.toNat = 3 := by simp [async_buffer_count]
    simp only [SwapperFactory.create_async_swapper_new_buffers, SwapperFactory.fill_buffer_list,
      ht]
    rw [h]
    cases bs <;> simp

theorem alloc_buffer_call_counts_witness :
    SwapperFactory.new (some (counting_allocator 100)) 3 = .ok (example_factory 100 3) ∧
    ((example_factory 100 3).create_sync_swapper_new_buffers stale_properties
        example_properties fresh_world).2.2.alloc_buffer_calls
      = [] ++ List.replicate (3 : Int).toNat example_properties ∧
    ((example_factory 100 3).create_async_swapper_new_buffers stale_properties
        example_properties fresh_world).2.2.alloc_buffer_calls
      = [] ++ List.replicate 3 example_properties :=
  ⟨rfl,
    (alloc_buffer_call_counts (counting_allocator 100) 3 (example_factory 100 3) rfl
      stale_properties example_properties fresh_world).1 _ 3 (example_run 100 (by decide)) rfl,
    (alloc_buffer_call_counts (counting_allocator 100) 3 (example_factory 100 3) rfl
      stale_properties example_properties fresh_world).2 _ 3 (example_run 100 (by decide)) rfl⟩

/-- C3: for a factory with `number_of_buffers = n >= 1`, when the `n`
allocations succeed and return the buffers `bs`,
`create_sync_swapper_new_buffers` returns the synchronous multi-buffer swapper
(never the spin swapper) over exactly `bs`, in allocation order, with buffer
count `n`, after exactly `n` `alloc_buffer` calls that each received the
requested properties unchanged. -/
theorem create_sync_swapper_new_buffers_multi {σ : Type}
    (a : GraphicBufferAllocator σ) (n : Int) (f : SwapperFactory σ)
    (hf : SwapperFactory.new (some a) n = .ok f)
    (hn : 1 ≤ n) (hint : n ≤ 2147483647)
    (actual requested : BufferProperties) (w : AllocatorWorld σ)
    (bs : List Buffer) (t : σ)
    (hrun : AllocRun a requested w.state bs t) (hlen : (bs.length : Int) = n) :
    (f.create_sync_swapper_new_buffers actual requested w).1
      = .ok (.BufferSwapperMulti bs bs.length) ∧
    (∀ l k, (f.create_sync_swapper_new_buffers actual requested w).1
      ≠ .ok (.BufferSwapperSpin l k)) ∧
    (f.create_sync_swapper_new_buffers actual requested w).2.2
      = ⟨t, w.alloc_buffer_calls ++ List.replicate bs.length requested⟩ := by
  rw [new_some_eq hf]
  have h := fill_buffer_list_loop_ok a n requested bs [] w t hrun
  have hnat : n.toNat = bs.length := by omega
  have hsz : int_to_size_t n = bs.length := by
    rw [← hlen]
    apply int_to_size_t_natCast
    have : (bs.length : Int) < 2 ^ 64 := by omega
    exact_mod_cast this
  obtain ⟨b, rest, hbs⟩ : ∃ b rest, bs = b :: rest := by
    cases bs with
    | nil => simp at hlen; omega
    | cons b rest => exact ⟨b, rest, rfl⟩
  have hres : SwapperFactory.create_sync_swapper_new_buffers
      { gr_allocator := some a, number_of_buffers := n } actual requested w
      = (.ok (.BufferSwapperMulti bs bs.length),
          { size := b.size, format := b.pixel_format, usage := requested.usage },
          ⟨t, w.alloc_buffer_calls ++ List.replicate bs.length requested⟩) := by
    simp only [SwapperFactory.create_sync_swapper_new_buffers, SwapperFactory.fill_buffer_list,
      hnat, hsz]
    rw [h]
    subst hbs
    simp
  rw [hres]
  simp

theorem create_sync_swapper_new_buffers_multi_witness :
    SwapperFactory.new (some (counting_allocator 100)) 3 = .ok (example_factory 100 3) ∧
    ((example_factory 100 3).create_sync_swapper_new_buffers stale_properties
        example_properties fresh_world).1
      = .ok (.BufferSwapperMulti [example_buffer 0, example_buffer 1, example_buffer 2] 3) ∧
    ((example_factory 100 3).create_sync_swapper_new_buffers stale_properties
        example_properties fresh_world).2.2
      = ⟨3, [] ++ List.replicate 3 example_properties⟩ :=
  ⟨rfl,
    (create_sync_swapper_new_buffers_multi (counting_allocator 100) 3 (example_factory 100 3)
      rfl (by decide) (by decide) stale_properties example_properties fresh_world
      [example_buffer 0, example_buffer 1, example_buffer 2] 3
      (example_run 100 (by decide)) rfl).1,
    (create_sync_swapper_new_buffers_multi (counting_allocator 100) 3 (example_factory 100 3)
      rfl (by decide) (by decide) stale_properties example_properties fresh_world
      [example_buffer 0, example_buffer 1, example_buffer 2] 3
      (example_run 100 (by decide)) rfl).2.2⟩

/-- C4: for a factory with `number_of_buffers = n >= 1`, after a
`create_sync_swapper_new_buffers` whose `n` allocations succeeded, and
likewise after a `create_async_swapper_new_buffers` whose 3 allocations
succeeded, the out-parameter holds the size and the pixel format of the first
allocated buffer `b0` (whatever was requested) and the requested usage. -/
theorem actual_buffer_properties_written {σ : Type}
    (a : GraphicBufferAllocator σ) (n : Int) (f : SwapperFactory σ)
    (hf : SwapperFactory.new (some a) n = .ok f) (hn : 1 ≤ n)
    (actual requested : BufferProperties) (w : AllocatorWorld σ) :
    (∀ (b0 : Buffer) (bs : List Buffer) (t : σ), AllocRun a requested w.state (b0 :: bs) t →
      ((b0 :: bs).length : Int) = n →
      (f.create_sync_swapper_new_buffers actual requested w).2.1
        = { size := b0.size, format := b0.pixel_format, usage := requested.usage }) ∧
    (∀ (b0 b1 b2 : Buffer) (t : σ), AllocRun a requested w.state [b0, b1, b2] t →
      (f.create_async_swapper_new_buffers actual requested w).2.1
        = { size := b0.size, format := b0.pixel_format, usage := requested.usage }) := by
  constructor
  · intro b0 bs t hrun hlen
    rw [new_some_eq hf]
    have h := fill_buffer_list_loop_ok a n requested (b0 :: bs) [] w t hrun
    have hnat : n.toNat = (b0 :: bs).length := by omega
    simp only [SwapperFactory.create_sync_swapper_new_buffers, SwapperFactory.fill_buffer_list,
      hnat]
    rw [h]
    simp
  · intro b0 b1 b2 t hrun
    rw [new_some_eq hf, create_async_swapper_new_buffers_ok a n actual requested w b0 b1 b2 t hrun]

theorem actual_buffer_properties_written_witness :
    SwapperFactory.new (some (counting_allocator 100)) 3 = .ok (example_factory 100 3) ∧
    example_properties.size = ⟨5, 4⟩ ∧
    ((example_factory 100 3).create_sync_swapper_new_buffers stale_properties
        example_properties fresh_world).2.1
      = { size := ⟨6, 4⟩, format := ⟨1⟩, usage := ⟨2⟩ } ∧
    ((example_factory 100 3).create_async_swapper_new_buffers stale_properties
        example_properties fresh_world).2.1
      = { size := ⟨6, 4⟩, format := ⟨1⟩, usage := ⟨2⟩ } :=
  ⟨rfl, rfl,
    (actual_buffer_properties_written (counting_allocator 100) 3 (example_factory 100 3) rfl
      (by decide) stale_properties example_properties fresh_world).1
      (example_buffer 0) [example_buffer 1, example_buffer 2] 3
      (example_run 100 (by decide)) rfl,
    (actual_buffer_properties_written (counting_allocator 100) 3 (example_factory 100 3) rfl
      (by decide) stale_properties example_properties fresh_world).2
      (example_buffer 0) (example_buffer 1) (example_buffer 2) 3
      (example_run 100 (by decide))⟩

/-- C5: when, after `bs.length` successful allocations, the next `alloc_buffer`
call of a create member throws `e`, the create member fails with that same
exception `e` and returns no swapper, the failing call is the last
`alloc_buffer` call made, and the out-parameter keeps the value it had before
the call; for `create_sync_swapper_new_buffers` (when fewer than
`number_of_buffers` allocations had succeeded) and for
`create_async_swapper_new_buffers` (when fewer than 3 had). -/
theorem alloc_buffer_failure_propagates {σ : Type}
    (a : GraphicBufferAllocator σ) (n : Int) (f : SwapperFactory σ)
    (hf : SwapperFactory.new (some a) n = .ok f)
    (actual requested : BufferProperties) (w : AllocatorWorld σ)
    (bs : List Buffer) (s1 s2 : σ) (e : Nat)
    (hrun : AllocRun a requested w.state bs s1)
    (hfail : a.alloc_buffer s1 requested = (.error e, s2)) :
    ((bs.length : Int) < n →
      f.create_sync_swapper_new_buffers actual requested w
        = (.error (.thrown e), actual,
            ⟨s2, w.alloc_buffer_calls ++ List.replicate (bs.length + 1) requested⟩)) ∧
    (bs.length < 3 →
      f.create_async_swapper_new_buffers actual requested w
        = (.error (.thrown e), actual,
            ⟨s2, w.alloc_buffer_calls ++ List.replicate (bs.length + 1) requested⟩)) := by
  rw [new_some_eq hf]
  constructor
  · intro hlt
    have hk : n.toNat = bs.length + 1 + (n.toNat - (bs.length + 1)) := by omega
    have h := fill_buffer_list_loop_fail a n requested bs e s1 s2 hfail
      (n.toNat - (bs.length + 1)) [] w hrun
    rw [← hk] at h
    simp only [SwapperFactory.create_sync_swapper_new_buffers, SwapperFactory.fill_buffer_list]
    rw [h]
  · intro hlt
    have ht : async_buffer_count.toNat = 3 := by simp [async_buffer_count]
    have hk : 3 = bs.length + 1 + (3 - (bs.length + 1)) := by omega
    have h := fill_buffer_list_loop_fail a n requested bs e s1 s2 hfail
      (3 - (bs.length + 1)) [] w hrun
    rw [← hk] at h
    simp only [SwapperFactory.create_async_swapper_new_buffers, SwapperFactory.fill_buffer_list,
      ht]
    rw [h]

theorem example_run_one :
    AllocRun (counting_allocator 1) example_properties 0 [example_buffer 0] 1 :=
  .step (by simp [counting_allocator, example_properties, example_buffer]) (.done 1)

theorem alloc_buffer_failure_propagates_witness :
    SwapperFactory.new (some (counting_allocator 1)) 2 = .ok (example_factory 1 2) ∧
    (counting_allocator 1).alloc_buffer 1 example_properties = (.error 7, 2) ∧
    (example_factory 1 2).create_sync_swapper_new_buffers stale_properties
        example_properties fresh_world
      = (.error (.thrown 7), stale_properties,
          ⟨2, [] ++ List.replicate 2 example_properties⟩) ∧
    (example_factory 1 2).create_async_swapper_new_buffers stale_properties
        example_properties fresh_world
      = (.error (.thrown 7), stale_properties,
          ⟨2, [] ++ List.replicate 2 example_properties⟩) :=
  ⟨rfl, rfl,
    (alloc_buffer_failure_propagates (counting_allocator 1) 2 (example_factory 1 2) rfl
      stale_properties example_properties fresh_world [example_buffer 0] 1 2 7
      example_run_one rfl).1 (by decide),
    (alloc_buffer_failure_propagates (counting_allocator 1) 2 (example_factory 1 2) rfl
      stale_properties example_properties fresh_world [example_buffer 0] 1 2 7
      example_run_one rfl).2 (by decide)⟩

/-- C6: constructing a `SwapperFactory` with a null allocator ends in the
failed assertion for every `number_of_buffers`, and whenever the constructor
completes, the factory it made holds a non-null allocator, the one it was
given. -/
theorem null_allocator_is_fatal {σ : Type} (gr_alloc : Option (GraphicBufferAllocator σ))
    (number_of_buffers : Int) :
    (SwapperFactory.new (none : Option (GraphicBufferAllocator σ)) number_of_buffers
      = .error .assertion_failed) ∧
    (match SwapperFactory.new gr_alloc number_of_buffers with
      | .ok f => gr_alloc.isSome = true ∧ f.gr_allocator.isSome = true
      | .error e => gr_alloc.isNone = true ∧ e = .assertion_failed) := by
  constructor
  · rfl
  · cases gr_alloc <;> simp [SwapperFactory.new]

/-- C7: for every buffer list and count, `create_sync_swapper_reuse` and
`create_async_swapper_reuse` leave the allocator and its call log untouched
(no `alloc_buffer` call) and return the multi-buffer swapper, respectively the
spin swapper, over exactly the given list and count. -/
theorem create_swapper_reuse_no_allocation {σ : Type} (f : SwapperFactory σ)
    (list : List Buffer) (buffer_num : Nat) (w : AllocatorWorld σ) :
    f.create_sync_swapper_reuse list buffer_num w
      = (.BufferSwapperMulti list buffer_num, w) ∧
    f.create_async_swapper_reuse list buffer_num w
      = (.BufferSwapperSpin list buffer_num, w) ∧
    (f.create_sync_swapper_reuse list buffer_num w).2.alloc_buffer_calls
      = w.alloc_buffer_calls ∧
    (f.create_async_swapper_reuse list buffer_num w).2.alloc_buffer_calls
      = w.alloc_buffer_calls :=
  ⟨rfl, rfl, rfl, rfl⟩

/-! ## The buffer bundle -/

theorem bundle_call_fields {S : Type} (self : BufferBundleSurfaces S) (w : SwapperWorld S)
    (c : BundleCall) : (self.call w c).1 = self := by
  cases c <;> rfl

theorem bundle_calls_fields {S : Type} (cs : List BundleCall) :
    ∀ (self : BufferBundleSurfaces S) (w : SwapperWorld S), (self.calls w cs).1 = self := by
  induction cs with
  | nil => intro self w; rfl
  | cons c cs ih =>
    intro self w
    simp only [BufferBundleSurfaces.calls]
    rw [ih, bundle_call_fields]

/-- C8: for a bundle constructed from a swapper and properties `p`,
`get_bundle_pixel_format()` returns `p.format` and `bundle_size()` returns
`p.size` after every sequence of `lock_back_buffer`, `secure_client_buffer` and
`force_requests_to_complete` calls, the empty sequence included. -/
theorem bundle_accessors_immutable {S : Type} (swapper : BufferSwapperMaster S)
    (p : BufferProperties) (w : SwapperWorld S) (cs : List BundleCall) :
    ((BufferBundleSurfaces.new swapper p).calls w cs).1.get_bundle_pixel_format = p.format ∧
    ((BufferBundleSurfaces.new swapper p).calls w cs).1.bundle_size = p.size := by
  rw [bundle_calls_fields]
  exact ⟨rfl, rfl⟩

/-- C9: `force_requests_to_complete` makes exactly one call on the bundle's
swapper, `force_client_completion`, and no other; the swapper is left in the
state that call produced, the call's outcome is passed on, and the bundle,
with its size and pixel format, is unchanged. -/
theorem force_requests_to_complete_delegates {S : Type} (self : BufferBundleSurfaces S)
    (w : SwapperWorld S) :
    (self.force_requests_to_complete w).2.2.calls
      = w.calls ++ [SwapperCall.force_client_completion] ∧
    (self.force_requests_to_complete w).2.2.state
      = (self.swapper.force_client_completion w.state).2 ∧
    (self.force_requests_to_complete w).1 = (self.swapper.force_client_completion w.state).1 ∧
    (self.force_requests_to_complete w).2.1 = self ∧
    (self.force_requests_to_complete w).2.1.bundle_size = self.bundle_size ∧
    (self.force_requests_to_complete w).2.1.get_bundle_pixel_format
      = self.get_bundle_pixel_format :=
  ⟨rfl, rfl, rfl, rfl, rfl, rfl⟩

/-- C10: `lock_back_buffer` makes exactly one call on the bundle's swapper,
`compositor_acquire`, and its handle holds the buffer that call returned;
`secure_client_buffer` makes exactly one call, `client_acquire`, and its handle
holds the buffer that call returned; neither makes a call of the other role,
and the bundle (swapper reference, size, pixel format; no buffer) is the same
after the call as before. -/
theorem bundle_acquires_by_role {S : Type} (self : BufferBundleSurfaces S)
    (w : SwapperWorld S) :
    ((self.lock_back_buffer w).2.2.calls = w.calls ++ [SwapperCall.compositor_acquire] ∧
      (self.lock_back_buffer w).2.2.state = (self.swapper.compositor_acquire w.state).2 ∧
      (self.lock_back_buffer w).1
        = ((self.swapper.compositor_acquire w.state).1).map TemporaryCompositorBuffer.mk ∧
      (self.lock_back_buffer w).2.1 = self) ∧
    ((self.secure_client_buffer w).2.2.calls = w.calls ++ [SwapperCall.client_acquire] ∧
      (self.secure_client_buffer w).2.2.state = (self.swapper.client_acquire w.state).2 ∧
      (self.secure_client_buffer w).1
        = ((self.swapper.client_acquire w.state).1).map TemporaryClientBuffer.mk ∧
      (self.secure_client_buffer w).2.1 = self) := by
  constructor
  · simp only [BufferBundleSurfaces.lock_back_buffer, TemporaryCompositorBuffer.new]
    rcases hc : self.swapper.compositor_acquire w.state with ⟨r, s⟩
    cases r <;> simp [Except.map]
  · simp only [BufferBundleSurfaces.secure_client_buffer, TemporaryClientBuffer.new]
    rcases hc : self.swapper.client_acquire w.state with ⟨r, s⟩
    cases r <;> simp [Except.map]

/-! ## Scoped handles -/

/-- C11: in a scoped use of a client buffer, respectively of the compositor's
back buffer, the buffer the swapper handed out is given back through exactly
one matching release (`client_release`, respectively `compositor_release`) of
that same buffer when the handle ends, and that on both exit paths: the calls
made on the swapper are the acquire followed by the one release whether the
caller's operation returns or fails, and the operation's outcome is passed
on. -/
theorem scoped_handle_releases_once {S α : Type} (self : BufferBundleSurfaces S)
    (operation : Buffer → Except Fault α) (w : SwapperWorld S) :
    (∀ (b : Buffer) (s1 : S), self.swapper.client_acquire w.state = (.ok b, s1) →
      (self.with_client_buffer operation w).2.calls
        = w.calls ++ [SwapperCall.client_acquire, SwapperCall.client_release b] ∧
      (self.with_client_buffer operation w).2.state = (self.swapper.client_release s1 b).2 ∧
      (self.with_client_buffer operation w).1 = operation b ∧
      ((self.with_client_buffer operation w).2.calls.drop w.calls.length).count
        (SwapperCall.client_release b) = 1) ∧
    (∀ (b : Buffer) (s1 : S), self.swapper.compositor_acquire w.state = (.ok b, s1) →
      (self.with_back_buffer operation w).2.calls
        = w.calls ++ [SwapperCall.compositor_acquire, SwapperCall.compositor_release b] ∧
      (self.with_back_buffer operation w).2.state
        = (self.swapper.compositor_release s1 b).2 ∧
      (self.with_back_buffer operation w).1 = operation b ∧
      ((self.with_back_buffer operation w).2.calls.drop w.calls.length).count
        (SwapperCall.compositor_release b) = 1) := by
  constructor
  · intro b s1 h
    simp [BufferBundleSurfaces.with_client_buffer, BufferBundleSurfaces.secure_client_buffer,
      TemporaryClientBuffer.new, TemporaryClientBuffer.destroy, h]
  · intro b s1 h
    simp [BufferBundleSurfaces.with_back_buffer, BufferBundleSurfaces.lock_back_buffer,
      TemporaryCompositorBuffer.new, TemporaryCompositorBuffer.destroy, h]

theorem scoped_handle_releases_once_witness :
    example_bundle.swapper.client_acquire 0 = (.ok (scenario_buffer 0), 1) ∧
    failing_operation (scenario_buffer 0) = .error (.thrown 5) ∧
    (example_bundle.with_client_buffer failing_operation ⟨0, []⟩).2.calls
      = [] ++ [SwapperCall.client_acquire, SwapperCall.client_release (scenario_buffer 0)] ∧
    (example_bundle.with_client_buffer failing_operation ⟨0, []⟩).1
      = failing_operation (scenario_buffer 0) ∧
    (example_bundle.with_back_buffer failing_operation ⟨0, []⟩).2.calls
      = [] ++ [SwapperCall.compositor_acquire,
          SwapperCall.compositor_release (scenario_buffer 0)] :=
  ⟨rfl, rfl,
    ((scoped_handle_releases_once example_bundle failing_operation ⟨0, []⟩).1
      (scenario_buffer 0) 1 rfl).1,
    ((scoped_handle_releases_once example_bundle failing_operation ⟨0, []⟩).1
      (scenario_buffer 0) 1 rfl).2.2.1,
    ((scoped_handle_releases_once example_bundle failing_operation ⟨0, []⟩).2
      (scenario_buffer 0) 1 rfl).1⟩

/-! ## Helper lemmas on the swapper contract -/

theorem pool_client_acquire (s : SwapperState) : (s.client_acquire.2).pool.Perm s.pool := by
  unfold SwapperState.client_acquire
  split
  · exact List.Perm.refl _
  · split
    · exact List.Perm.refl _
    · split
      · exact List.Perm.refl _
      · rename_i b rest hca
        rw [List.perm_iff_count]
        intro a
        simp only [SwapperState.pool, hca, List.count_append, List.count_cons, List.count_nil]
        omega

theorem count_erase_add (a b : Buffer) (l : List Buffer) (hb : b ∈ l) :
    List.count a (l.erase b) + (if b = a then 1 else 0) = List.count a l := by
  by_cases hab : b = a
  · subst hab
    have hpos : 0 < List.count b l := List.count_pos_iff.mpr hb
    simp only [List.count_erase_self, if_true]
    omega
  · have hne : a ≠ b := fun h => hab h.symm
    simp [List.count_erase_of_ne hne, hab]

theorem pool_client_release (s : SwapperState) (b : Buffer) :
    ((s.client_release b).2).pool.Perm s.pool := by
  unfold SwapperState.client_release
  split
  · exact List.Perm.refl _
  · split
    · rename_i hmem
      rw [List.perm_iff_count]
      intro a
      have h := count_erase_add a b s.client_held hmem
      simp only [SwapperState.pool, List.count_append, Option.toList, List.count_cons,
        List.count_nil, beq_iff_eq]
      cases hp : s.posted <;> simp only [List.count_nil, List.count_cons, beq_iff_eq] <;> omega
    · exact List.Perm.refl _

theorem pool_compositor_acquire (s : SwapperState) :
    (s.compositor_acquire.2).pool.Perm s.pool := by
  unfold SwapperState.compositor_acquire
  split
  · exact List.Perm.refl _
  · split
    · rename_i b hp
      rw [List.perm_iff_count]
      intro a
      simp only [SwapperState.pool, hp, List.count_append, Option.toList, List.count_cons,
        List.count_nil]
      omega
    · split
      · split <;> exact List.Perm.refl _
      · exact List.Perm.refl _

theorem pool_compositor_release (s : SwapperState) (b : Buffer) :
    ((s.compositor_release b).2).pool.Perm s.pool := by
  unfold SwapperState.compositor_release
  split
  · exact List.Perm.refl _
  · split
    · rename_i hmem
      have h := fun a => count_erase_add a b s.compositor_held hmem
      split
      · rename_i hc
        rw [List.perm_iff_count]
        intro a
        have ha := h a
        simp only [SwapperState.pool, hc.2, List.count_append, Option.toList, List.count_cons,
          List.count_nil, beq_iff_eq]
        omega
      · rw [List.perm_iff_count]
        intro a
        have ha := h a
        simp only [SwapperState.pool, List.count_append, List.count_cons,
          List.count_nil, beq_iff_eq]
        omega
    · exact List.Perm.refl _

theorem pool_end_responsibility (s : SwapperState) (buffers : List Buffer) :
    ((s.end_responsibility buffers).2).pool.Subperm s.pool := by
  unfold SwapperState.end_responsibility
  split
  · exact (List.Perm.refl _).subperm
  · apply List.Sublist.subperm
    simp only [SwapperState.pool, Option.toList, List.nil_append, List.append_nil]
    have h1 : (s.client_held ++ s.compositor_held).Sublist
        (s.client_available ++ s.client_held ++ s.posted.toList ++ s.compositor_held) := by
      rw [List.append_assoc, List.append_assoc]
      apply List.Sublist.trans _ (List.sublist_append_right _ _)
      apply List.Sublist.append (List.Sublist.refl _)
      exact List.sublist_append_right _ _
    exact h1

theorem pool_step_perm (s : SwapperState) (c : SwapperCall)
    (hc : c ≠ SwapperCall.end_responsibility) : (s.step c).pool.Perm s.pool := by
  cases c with
  | client_acquire => exact pool_client_acquire s
  | client_release b => exact pool_client_release s b
  | compositor_acquire => exact pool_compositor_acquire s
  | compositor_release b => exact pool_compositor_release s b
  | force_client_completion => exact List.Perm.refl _
  | end_responsibility => exact absurd rfl hc

theorem pool_step_subperm (s : SwapperState) (c : SwapperCall) :
    (s.step c).pool.Subperm s.pool := by
  by_cases hc : c = SwapperCall.end_responsibility
  · subst hc
    exact pool_end_responsibility s []
  · exact (pool_step_perm s c hc).subperm

theorem pool_run_subperm (cs : List SwapperCall) :
    ∀ s : SwapperState, (s.run cs).pool.Subperm s.pool := by
  induction cs with
  | nil => intro s; exact (List.Perm.refl _).subperm
  | cons c cs ih =>
    intro s
    exact (ih (s.step c)).trans (pool_step_subperm s c)

theorem pool_run_perm (cs : List SwapperCall) :
    ∀ s : SwapperState, (∀ c ∈ cs, c ≠ SwapperCall.end_responsibility) →
      (s.run cs).pool.Perm s.pool := by
  induction cs with
  | nil => intro s _; exact List.Perm.refl _
  | cons c cs ih =>
    intro s h
    exact (ih (s.step c) (fun d hd => h d (List.mem_cons_of_mem _ hd))).trans
      (pool_step_perm s c (h c (List.mem_cons_self _ _)))

theorem pool_start (sw : BufferSwapper) : sw.start.pool = sw.buffers := by
  cases sw <;> simp [BufferSwapper.start, BufferSwapper.buffers, SwapperState.pool]

theorem pool_ids_nodup (sw : BufferSwapper) (hids : (sw.buffers.map Buffer.id).Nodup)
    (cs : List SwapperCall) : (((sw.start.run cs).pool).map Buffer.id).Nodup := by
  have h := pool_run_subperm cs sw.start
  rw [pool_start] at h
  obtain ⟨l, hperm, hsub⟩ := h
  have h1 : (l.map Buffer.id).Nodup := List.Nodup.sublist (hsub.map Buffer.id) hids
  exact ((hperm.map Buffer.id).nodup_iff).mp h1

theorem run_step_last (cs : List SwapperCall) :
    ∀ (s : SwapperState) (c : SwapperCall), s.run (cs ++ [c]) = (s.run cs).step c := by
  induction cs with
  | nil => intro s c; rfl
  | cons d cs ih => intro s c; exact ih (s.step d) c

/-! ## The swapper contract -/

/-- C12: for a swapper of either variant over buffers of distinct identity and
every sequence of calls, no buffer identity is held by the client and by the
compositor at the same time; `compositor_acquire` never returns a buffer the
client holds and `client_acquire` never returns a buffer the compositor
holds. -/
theorem client_and_compositor_exclusive (sw : BufferSwapper)
    (hids : (sw.buffers.map Buffer.id).Nodup) (cs : List SwapperCall) :
    (∀ b ∈ (sw.start.run cs).client_held, ∀ c ∈ (sw.start.run cs).compositor_held,
      b.id ≠ c.id) ∧
    (∀ b, (sw.start.run cs).compositor_acquire.1 = .returned b →
      ∀ c ∈ (sw.start.run cs).client_held, c.id ≠ b.id) ∧
    (∀ b, (sw.start.run cs).client_acquire.1 = .returned b →
      ∀ c ∈ (sw.start.run cs).compositor_held, c.id ≠ b.id) := by
  have hnd := pool_ids_nodup sw hids cs
  generalize sw.start.run cs = s at hnd
  have hle := fun x => List.nodup_iff_count_le_one.mp hnd x
  simp only [SwapperState.pool, List.map_append, List.count_append] at hle
  have hpos : ∀ (l : List Buffer) (x : Buffer), x ∈ l →
      0 < List.count x.id (l.map Buffer.id) :=
    fun l x hx => List.count_pos_iff.mpr (List.mem_map_of_mem _ hx)
  refine ⟨?_, ?_, ?_⟩
  · intro b hb c hc heq
    have h1 := hpos _ b hb
    have h2 := hpos _ c hc
    rw [← heq] at h2
    have := hle b.id
    omega
  · intro b hret c hc heq
    have h2 := hpos _ c hc
    rw [heq] at h2
    have hb := hle b.id
    unfold SwapperState.compositor_acquire at hret
    split at hret
    · simp at hret
    · split at hret
      · rename_i b1 hp
        simp only [SwapperResult.returned.injEq] at hret
        subst hret
        have h3 : 0 < List.count b1.id (s.posted.toList.map Buffer.id) := by
          rw [hp]; simp
        omega
      · split at hret
        · split at hret
          · rename_i b1 hl hmem
            simp only [SwapperResult.returned.injEq] at hret
            subst hret
            have h3 := hpos _ b1 hmem
            omega
          · simp at hret
        · simp at hret
  · intro b hret c hc heq
    have h2 := hpos _ c hc
    rw [heq] at h2
    have hb := hle b.id
    unfold SwapperState.client_acquire at hret
    split at hret
    · simp at hret
    · split at hret
      · simp at hret
      · split at hret
        · simp at hret
        · rename_i b1 rest hca
          simp only [SwapperResult.returned.injEq] at hret
          subst hret
          have h3 : 0 < List.count b1.id (s.client_available.map Buffer.id) := by
            rw [hca]; simp
          omega

theorem client_and_compositor_exclusive_witness :
    (double_buffer_swapper.buffers.map Buffer.id).Nodup ∧
    (double_buffer_swapper.start.run scenario_a).client_held = [scenario_buffer 1] ∧
    (double_buffer_swapper.start.run scenario_a).compositor_held = [scenario_buffer 0] ∧
    (∀ b ∈ (double_buffer_swapper.start.run scenario_a).client_held,
      ∀ c ∈ (double_buffer_swapper.start.run scenario_a).compositor_held, b.id ≠ c.id) :=
  ⟨by decide, by decide, by decide,
    (client_and_compositor_exclusive double_buffer_swapper (by decide) scenario_a).1⟩

theorem step_original_size (s : SwapperState) (c : SwapperCall) :
    (s.step c).original_size = s.original_size := by
  cases c <;>
    simp only [SwapperState.step, SwapperState.client_acquire, SwapperState.client_release,
      SwapperState.compositor_acquire, SwapperState.compositor_release,
      SwapperState.force_client_completion, SwapperState.end_responsibility] <;>
    (repeat' split) <;> rfl

theorem run_original_size (cs : List SwapperCall) :
    ∀ s : SwapperState, (s.run cs).original_size = s.original_size := by
  induction cs with
  | nil => intro s; rfl
  | cons c cs ih => intro s; exact (ih (s.step c)).trans (step_original_size s c)

theorem step_ended (s : SwapperState) (c : SwapperCall)
    (hc : c ≠ SwapperCall.end_responsibility) : (s.step c).ended = s.ended := by
  cases c <;>
    first
    | exact absurd rfl hc
    | (simp only [SwapperState.step, SwapperState.client_acquire, SwapperState.client_release,
        SwapperState.compositor_acquire, SwapperState.compositor_release,
        SwapperState.force_client_completion] <;>
      (repeat' split) <;> rfl)

theorem run_ended (cs : List SwapperCall) :
    ∀ s : SwapperState, (∀ c ∈ cs, c ≠ SwapperCall.end_responsibility) →
      (s.run cs).ended = s.ended := by
  induction cs with
  | nil => intro s _; rfl
  | cons c cs ih =>
    intro s h
    exact (ih (s.step c) (fun d hd => h d (List.mem_cons_of_mem _ hd))).trans
      (step_ended s c (h c (List.mem_cons_self _ _)))

theorem step_stays_ended (s : SwapperState) (c : SwapperCall) (h : s.ended = true) :
    (s.step c).ended = true := by
  cases c <;>
    simp only [SwapperState.step, SwapperState.client_acquire, SwapperState.client_release,
      SwapperState.compositor_acquire, SwapperState.compositor_release,
      SwapperState.force_client_completion, SwapperState.end_responsibility] <;>
    (repeat' split) <;> simp_all

theorem run_stays_ended (cs : List SwapperCall) :
    ∀ s : SwapperState, s.ended = true → (s.run cs).ended = true := by
  induction cs with
  | nil => intro s h; exact h
  | cons c cs ih => intro s h; exact ih (s.step c) (step_stays_ended s c h)

theorem step_stays_disabled (s : SwapperState) (c : SwapperCall) (h : s.client_disabled = true) :
    (s.step c).client_disabled = true := by
  cases c <;>
    simp only [SwapperState.step, SwapperState.client_acquire, SwapperState.client_release,
      SwapperState.compositor_acquire, SwapperState.compositor_release,
      SwapperState.force_client_completion, SwapperState.end_responsibility] <;>
    (repeat' split) <;> simp_all

theorem run_stays_disabled (cs : List SwapperCall) :
    ∀ s : SwapperState, s.client_disabled = true → (s.run cs).client_disabled = true := by
  induction cs with
  | nil => intro s h; exact h
  | cons c cs ih => intro s h; exact ih (s.step c) (step_stays_disabled s c h)

theorem start_fields (sw : BufferSwapper) :
    sw.start.original_size = sw.size ∧ sw.start.ended = false ∧
    sw.start.client_disabled = false ∧ sw.start.client_available = sw.buffers ∧
    sw.start.posted = none ∧ sw.start.client_held = [] ∧ sw.start.compositor_held = [] := by
  cases sw <;> simp [BufferSwapper.start, BufferSwapper.size, BufferSwapper.buffers]

theorem pool_length (s : SwapperState) :
    s.pool.length = s.free_count + s.client_held.length + s.compositor_held.length := by
  simp only [SwapperState.pool, SwapperState.free_count, List.length_append]
  omega

theorem run_pool_length (sw : BufferSwapper) (cs : List SwapperCall)
    (hcs : ∀ c ∈ cs, c ≠ SwapperCall.end_responsibility) :
    (sw.start.run cs).free_count + (sw.start.run cs).client_held.length
        + (sw.start.run cs).compositor_held.length = sw.buffers.length := by
  have hlen := (pool_run_perm cs sw.start hcs).length_eq
  rw [pool_start, pool_length] at hlen
  exact hlen

/-- C13: for a swapper of either variant and every sequence of calls that does
not contain `end_responsibility`, after each call of the sequence the free
buffers, the client-held buffers and the compositor-held buffers add up to the
number of buffers the swapper was built over, which is the recorded original
pool size when the swapper was built with that count. -/
theorem pool_size_conserved (sw : BufferSwapper) (cs : List SwapperCall)
    (hcs : ∀ c ∈ cs, c ≠ SwapperCall.end_responsibility) (k : Nat) :
    (sw.start.run (cs.take k)).free_count + (sw.start.run (cs.take k)).client_held.length
        + (sw.start.run (cs.take k)).compositor_held.length = sw.buffers.length ∧
    (sw.size = sw.buffers.length →
      (sw.start.run (cs.take k)).free_count + (sw.start.run (cs.take k)).client_held.length
          + (sw.start.run (cs.take k)).compositor_held.length
        = (sw.start.run (cs.take k)).original_size) := by
  have hlen := run_pool_length sw (cs.take k)
    (fun c hc => hcs c (List.mem_of_mem_take hc))
  refine ⟨hlen, ?_⟩
  intro hsize
  rw [hlen, run_original_size, (start_fields sw).1, hsize]

theorem pool_size_conserved_witness :
    (∀ c ∈ scenario_a, c ≠ SwapperCall.end_responsibility) ∧
    (double_buffer_swapper.start.run (scenario_a.take 3)).free_count = 1 ∧
    (double_buffer_swapper.start.run (scenario_a.take 3)).free_count
        + (double_buffer_swapper.start.run (scenario_a.take 3)).client_held.length
        + (double_buffer_swapper.start.run (scenario_a.take 3)).compositor_held.length
      = double_buffer_swapper.buffers.length :=
  ⟨by decide, by decide,
    (pool_size_conserved double_buffer_swapper scenario_a (by decide) 3).1⟩

/-- C14: after `force_client_completion`, whatever calls follow, a
`client_acquire` fails with the shutdown condition (it neither returns a buffer
nor blocks) and the client side stays disabled; `compositor_acquire` and
`compositor_release` give the result, and move the buffers, exactly as they
would have without the forced completion. -/
theorem force_client_completion_final (s : SwapperState) (cs : List SwapperCall)
    (b : Buffer) :
    ((s.force_client_completion.2).run cs).client_acquire.1 = .shutting_down ∧
    (∀ x, ((s.force_client_completion.2).run cs).client_acquire.1 ≠ .returned x) ∧
    ((s.force_client_completion.2).run cs).client_disabled = true ∧
    (s.force_client_completion.2).compositor_acquire
      = (s.compositor_acquire.1, (s.compositor_acquire.2).force_client_completion.2) ∧
    (s.force_client_completion.2).compositor_release b
      = ((s.compositor_release b).1, ((s.compositor_release b).2).force_client_completion.2) := by
  have hd : ((s.force_client_completion.2).run cs).client_disabled = true :=
    run_stays_disabled cs _ rfl
  have hacq : ((s.force_client_completion.2).run cs).client_acquire.1 = .shutting_down := by
    simp [SwapperState.client_acquire, hd]
  refine ⟨hacq, ?_, hd, ?_, ?_⟩
  · intro x
    rw [hacq]
    exact fun h => by cases h
  · simp only [SwapperState.force_client_completion, SwapperState.compositor_acquire]
    split
    · rfl
    · split
      · rfl
      · split
        · split <;> rfl
        · rfl
  · simp only [SwapperState.force_client_completion, SwapperState.compositor_release]
    split
    · rfl
    · split
      · split <;> rfl
      · rfl

/-- C15: on a swapper built with as many buffers as its count says and not yet
ended, `end_responsibility` appends every buffer the swapper owns to the
caller's collection and reports the original pool size, which is the number of
buffers owned plus outstanding; on the fresh swapper the collection receives
exactly the buffers the swapper was built over and the reported size is their
number; afterwards the swapper owns nothing and every `client_acquire`,
whatever calls come before it, faults. -/
theorem end_responsibility_hands_over (sw : BufferSwapper)
    (hsize : sw.size = sw.buffers.length) (cs : List SwapperCall)
    (hcs : ∀ c ∈ cs, c ≠ SwapperCall.end_responsibility) (buffers : List Buffer)
    (later : List SwapperCall) :
    ((sw.start.run cs).end_responsibility buffers).1
      = .returned (buffers ++ ((sw.start.run cs).client_available
          ++ (sw.start.run cs).posted.toList), sw.size) ∧
    sw.size = ((sw.start.run cs).client_available ++ (sw.start.run cs).posted.toList).length
      + ((sw.start.run cs).client_held.length + (sw.start.run cs).compositor_held.length) ∧
    (sw.start.end_responsibility []).1 = .returned (sw.buffers, sw.buffers.length) ∧
    (((sw.start.run cs).end_responsibility buffers).2).client_available = [] ∧
    (((sw.start.run cs).end_responsibility buffers).2).posted = none ∧
    (((sw.start.run cs).end_responsibility buffers).2).client_acquire.1.is_fault = true ∧
    ((((sw.start.run cs).end_responsibility buffers).2).run later).client_acquire.1.is_fault
      = true := by
  have hended : (sw.start.run cs).ended = false := by
    rw [run_ended cs _ hcs]; exact (start_fields sw).2.1
  have horig : (sw.start.run cs).original_size = sw.size := by
    rw [run_original_size]; exact (start_fields sw).1
  have hcons := run_pool_length sw cs hcs
  have hfault : ∀ t : SwapperState, t.ended = true → t.client_acquire.1.is_fault = true := by
    intro t ht
    unfold SwapperState.client_acquire
    split
    · rfl
    · simp [ht, SwapperResult.is_fault]
  have hafter : (((sw.start.run cs).end_responsibility buffers).2).ended = true := by
    simp [SwapperState.end_responsibility, hended]
  refine ⟨?_, ?_, ?_, ?_, ?_, hfault _ hafter, hfault _ (run_stays_ended later _ hafter)⟩
  · simp [SwapperState.end_responsibility, hended, horig]
  · simp only [SwapperState.free_count] at hcons
    rw [hsize, List.length_append]
    omega
  · obtain ⟨h1, h2, _, h4, h5, _, _⟩ := start_fields sw
    simp [SwapperState.end_responsibility, h1, h2, h4, h5, hsize]
  · simp [SwapperState.end_responsibility, hended]
  · simp [SwapperState.end_responsibility, hended]

theorem end_responsibility_hands_over_witness :
    double_buffer_swapper.size = double_buffer_swapper.buffers.length ∧
    (double_buffer_swapper.start.end_responsibility []).1
      = .returned ([scenario_buffer 0, scenario_buffer 1], 2) ∧
    ((double_buffer_swapper.start.end_responsibility []).2).client_acquire.1
      = .usage_fault ∧
    (((double_buffer_swapper.start.run []).end_responsibility []).2).client_acquire.1.is_fault
      = true :=
  ⟨by decide, by decide, by decide,
    (end_responsibility_hands_over double_buffer_swapper (by decide) [] (by decide) []
      []).2.2.2.2.2.1⟩

theorem compositor_acquire_current_frame (s : SwapperState) (b : Buffer) :
    s.compositor_acquire.1 = .returned b ↔ s.current_frame = some b := by
  unfold SwapperState.compositor_acquire SwapperState.current_frame
  split
  · simp
  · split
    · simp
    · split
      · split <;> simp
      · simp

theorem current_frame_after_client_release (s : SwapperState) (b : Buffer)
    (h : (s.client_release b).1 = .returned ()) :
    ((s.client_release b).2).current_frame = some b := by
  unfold SwapperState.client_release at h ⊢
  split
  · rename_i hc; simp [hc] at h
  · rename_i hc
    split
    · simp only [Bool.or_eq_true, not_or, Bool.not_eq_true] at hc
      simp [SwapperState.current_frame, hc.2]
    · rename_i hm; simp [hc, hm] at h

theorem current_frame_after_compositor_acquire (s : SwapperState) (b : Buffer)
    (h : s.compositor_acquire.1 = .returned b) :
    (s.compositor_acquire.2).current_frame = some b := by
  cases he : s.ended with
  | true => simp [SwapperState.compositor_acquire, he] at h
  | false =>
    cases hp : s.posted with
    | some p =>
      simp only [SwapperState.compositor_acquire, he, hp, Bool.false_eq_true, if_false,
        SwapperResult.returned.injEq] at h ⊢
      subst h
      simp [SwapperState.current_frame, he]
    | none =>
      cases hl : s.last_posted with
      | none => simp [SwapperState.compositor_acquire, he, hp, hl] at h
      | some l =>
        by_cases hm : l ∈ s.compositor_held
        · simp only [SwapperState.compositor_acquire, he, hp, hl, hm, Bool.false_eq_true,
            if_false, if_true, SwapperResult.returned.injEq] at h ⊢
          subst h
          simp [SwapperState.current_frame, he, hp, hl, hm]
        · simp [SwapperState.compositor_acquire, he, hp, hl, hm] at h

theorem current_frame_step (s : SwapperState) (b : Buffer) (c : SwapperCall)
    (hf : s.current_frame = some b) (hc : c.posts_nothing = true) :
    (s.step c).current_frame = some b := by
  have hended : s.ended = false := by
    by_contra hne
    simp only [Bool.not_eq_false] at hne
    simp [SwapperState.current_frame, hne] at hf
  cases c with
  | client_release x => simp [SwapperCall.posts_nothing] at hc
  | end_responsibility => simp [SwapperCall.posts_nothing] at hc
  | force_client_completion => exact hf
  | client_acquire =>
    simp only [SwapperState.step, SwapperState.client_acquire]
    split
    · exact hf
    · split
      · exact hf
      · split
        · exact hf
        · simpa [SwapperState.current_frame] using hf
  | compositor_acquire =>
    exact current_frame_after_compositor_acquire s b
      ((compositor_acquire_current_frame s b).mpr hf)
  | compositor_release x =>
    simp only [SwapperState.step, SwapperState.compositor_release]
    split
    · exact hf
    · split
      · rename_i hx
        split
        · rename_i hcond
          simp only [SwapperState.current_frame, hended, hcond.2, hcond.1] at hf
          simp only [Bool.false_eq_true, if_false, hx, if_true, Option.some.injEq] at hf
          subst hf
          simp [SwapperState.current_frame, hended]
        · rename_i hcond
          simp only [SwapperState.current_frame, hended, Bool.false_eq_true, if_false] at hf ⊢
          cases hp : s.posted with
          | some p => simpa [hp] using hf
          | none =>
            simp only [hp] at hf ⊢
            cases hl : s.last_posted with
            | none => simp [hl] at hf
            | some l =>
              simp only [hl] at hf ⊢
              by_cases hm : l ∈ s.compositor_held
              · simp only [hm, if_true, Option.some.injEq] at hf
                subst hf
                have hne : l ≠ x := by
                  intro heq
                  exact hcond ⟨by rw [hl, heq], hp⟩
                simp [List.mem_erase_of_ne hne, hm]
              · simp [hm] at hf
      · exact hf

theorem current_frame_run (cs : List SwapperCall) (b : Buffer) :
    ∀ s : SwapperState, s.current_frame = some b → (∀ c ∈ cs, c.posts_nothing = true) →
      (s.run cs).current_frame = some b := by
  induction cs with
  | nil => intro s h _; exact h
  | cons c cs ih =>
    intro s h hcs
    exact ih (s.step c) (current_frame_step s b c h (hcs c (List.mem_cons_self _ _)))
      (fun d hd => hcs d (List.mem_cons_of_mem _ hd))

/-- C16, as stated, fails: the state reached by `client_acquire`,
`client_release(B0)`, `end_responsibility` on the double-buffer swapper is
reachable, `B0` is the buffer most recently queued by `client_release`, and
`compositor_acquire` does not return it there: it is a usage fault. -/
theorem compositor_acquire_after_end_responsibility :
    ((double_buffer_swapper.start.run [.client_acquire]).client_release
        (scenario_buffer 0)).1 = .returned () ∧
    (double_buffer_swapper.start.run
        [.client_acquire, .client_release (scenario_buffer 0),
          .end_responsibility]).compositor_acquire.1 = .usage_fault ∧
    (double_buffer_swapper.start.run
        [.client_acquire, .client_release (scenario_buffer 0),
          .end_responsibility]).compositor_acquire.1 ≠ .returned (scenario_buffer 0) := by
  decide

/-- C16, amended: `compositor_acquire` never blocks; once `client_release` has
queued a buffer `b`, after any calls that queue no newer buffer and do not end
the swapper, `compositor_acquire` returns `b`; and once `compositor_acquire` has
returned `b`, after any such calls it returns that same `b` again. -/
theorem compositor_acquire_latest_frame (s : SwapperState) (b : Buffer)
    (cs : List SwapperCall) (hcs : ∀ c ∈ cs, c.posts_nothing = true) :
    s.compositor_acquire.1 ≠ .blocked ∧
    ((s.client_release b).1 = .returned () →
      (((s.client_release b).2).run cs).compositor_acquire.1 = .returned b) ∧
    (s.compositor_acquire.1 = .returned b →
      ((s.compositor_acquire.2).run cs).compositor_acquire.1 = .returned b) := by
  refine ⟨?_, ?_, ?_⟩
  · unfold SwapperState.compositor_acquire
    split
    · simp
    · split
      · simp
      · split
        · split <;> simp
        · simp
  · intro h
    rw [compositor_acquire_current_frame]
    exact current_frame_run cs b _ (current_frame_after_client_release s b h) hcs
  · intro h
    rw [compositor_acquire_current_frame]
    exact current_frame_run cs b _ (current_frame_after_compositor_acquire s b h) hcs

theorem compositor_acquire_latest_frame_witness :
    (∀ c ∈ [SwapperCall.compositor_acquire, SwapperCall.client_acquire,
        SwapperCall.compositor_release (scenario_buffer 0)], c.posts_nothing = true) ∧
    ((double_buffer_swapper.start.run [.client_acquire]).client_release
        (scenario_buffer 0)).1 = .returned () ∧
    ((((double_buffer_swapper.start.run [.client_acquire]).client_release
        (scenario_buffer 0)).2).run
          [.compositor_acquire, .client_acquire,
            .compositor_release (scenario_buffer 0)]).compositor_acquire.1
      = .returned (scenario_buffer 0) :=
  ⟨by decide, by decide,
    (compositor_acquire_latest_frame (double_buffer_swapper.start.run [.client_acquire])
      (scenario_buffer 0)
      [.compositor_acquire, .client_acquire, .compositor_release (scenario_buffer 0)]
      (by decide)).2.1 (by decide)⟩

end compositor

namespace graphics

namespace android

open compositor

/-! ## The render window of the Android platform -/

theorem retrieve_none_of_not_mem (entries : List (Nat × Nat)) (handle : Nat)
    (h : ∀ e ∈ entries, e.1 ≠ handle) : retrieve entries handle = none := by
  unfold retrieve
  have hf : entries.find? (fun e => decide (e.1 = handle)) = none := by
    rw [List.find?_eq_none]
    intro e he
    simpa using h e he
  rw [hf]

theorem handles_of_requests {S : Type} (n : Nat) :
    ∀ (self : ServerRenderWindow S) (w : DriverWorld S) (handed : List Nat),
      (∀ e ∈ self.buffers_in_driver, e.1 ∈ handed) →
      ∀ e ∈ (ServerRenderWindow.request_buffers n self w).2.1.buffers_in_driver,
        e.1 ∈ handed ++ (ServerRenderWindow.request_buffers n self w).1 := by
  induction n with
  | zero =>
    intro self w handed h e he
    simpa [ServerRenderWindow.request_buffers] using h e he
  | succ n ih =>
    intro self w handed h e he
    simp only [ServerRenderWindow.request_buffers] at he ⊢
    have h1 : ∀ e ∈ (self.driver_requests_buffer w).2.1.buffers_in_driver,
        e.1 ∈ handed ++ [(self.driver_requests_buffer w).1] := by
      intro e he
      simp only [ServerRenderWindow.driver_requests_buffer, List.mem_cons, forget,
        List.mem_filter] at he
      rcases he with he | he
      · simp [ServerRenderWindow.driver_requests_buffer, he]
      · simp [h e he.1]
    have := ih _ _ _ h1 e he
    simpa [List.append_assoc] using this

/-- C17: `driver_returns_buffer` called with a native handle that is not with
the driver throws `std::runtime_error`, makes no call on the swapper (so no
`compositor_release`) and leaves the window as it was; this is so for every
window in which no outstanding entry carries the handle, and in particular
after any number of `driver_requests_buffer` calls none of which handed the
handle out. -/
theorem driver_returns_unknown_buffer_throws (handle : Nat) :
    (∀ (S : Type) (self : ServerRenderWindow S) (w : DriverWorld S),
      (∀ e ∈ self.buffers_in_driver, e.1 ≠ handle) →
      self.driver_returns_buffer handle w = (.error (.thrown std_runtime_error), self, w)) ∧
    (∀ (S : Type) (swapper : DriverSwapper S) (n : Nat) (w : DriverWorld S),
      handle ∉ (ServerRenderWindow.request_buffers n (ServerRenderWindow.new swapper) w).1 →
      ((ServerRenderWindow.request_buffers n (ServerRenderWindow.new swapper) w).2.1
          |>.driver_returns_buffer handle
            (ServerRenderWindow.request_buffers n (ServerRenderWindow.new swapper) w).2.2)
        = (.error (.thrown std_runtime_error),
            (ServerRenderWindow.request_buffers n (ServerRenderWindow.new swapper) w).2.1,
            (ServerRenderWindow.request_buffers n (ServerRenderWindow.new swapper) w).2.2)) := by
  constructor
  · intro S self w hnot
    simp only [ServerRenderWindow.driver_returns_buffer,
      retrieve_none_of_not_mem _ handle hnot]
  · intro S swapper n w hnot
    have hk := handles_of_requests n (ServerRenderWindow.new swapper) w []
      (by simp [ServerRenderWindow.new])
    have hr := retrieve_none_of_not_mem _ handle (fun e he heq => hnot (by
      have := hk e he
      simpa [heq] using this))
    simp only [ServerRenderWindow.driver_returns_buffer, hr]

theorem driver_returns_unknown_buffer_throws_witness :
    (∀ e ∈ (ServerRenderWindow.new mock_swapper).buffers_in_driver, e.1 ≠ 0) ∧
    (ServerRenderWindow.new mock_swapper).driver_returns_buffer 0 mock_world
      = (.error (.thrown std_runtime_error), ServerRenderWindow.new mock_swapper,
          mock_world) ∧
    ((ServerRenderWindow.new mock_swapper).driver_returns_buffer 0 mock_world).2.2.calls = [] :=
  ⟨by simp [ServerRenderWindow.new],
    (driver_returns_unknown_buffer_throws 0).1 Nat (ServerRenderWindow.new mock_swapper)
      mock_world (by simp [ServerRenderWindow.new]),
    rfl⟩

end android

end graphics

namespace frontend

open compositor

/-! ## The unauthorized display changer -/

/-- C19: `UnauthorizedDisplayChanger::configure` throws `std::runtime_error` for
every session and every display configuration and makes no call on the
wrapped changer, whose state it leaves untouched; `active_configuration`
returns exactly the configuration object that one `active_configuration` call
on the wrapped changer returns. -/
theorem unauthorized_display_changer_read_only {D : Type}
    (self : UnauthorizedDisplayChanger D) (session : Option Nat) (conf : Nat)
    (w : ChangerWorld D) :
    self.configure session conf w = (.error (.thrown std_runtime_error), w) ∧
    (self.active_configuration w).1 = (self.changer.active_configuration w.state).1 ∧
    (self.active_configuration w).2.calls
      = w.calls ++ [DisplayChangerCall.active_configuration] ∧
    (self.active_configuration w).2.state = (self.changer.active_configuration w.state).2 :=
  ⟨rfl, rfl, rfl, rfl⟩

end frontend

namespace graphics

/-! ## Equality of display configuration outputs -/

theorem mode_operator_eq_iff (a b : DisplayConfigurationMode) :
    a.operator_eq b = true ↔ a = b := by
  cases a; cases b
  simp [DisplayConfigurationMode.operator_eq]

theorem modes_equal_iff (l1 : List DisplayConfigurationMode) :
    ∀ l2 : List DisplayConfigurationMode, modes_equal l1 l2 = true ↔ l1 = l2 := by
  induction l1 with
  | nil => intro l2; cases l2 <;> simp [modes_equal]
  | cons m rest ih =>
    intro l2
    cases l2 with
    | nil => simp [modes_equal]
    | cons m2 rest2 => simp [modes_equal, mode_operator_eq_iff, ih]

theorem output_operator_eq_iff (a b : DisplayConfigurationOutput) :
    a.operator_eq b = true ↔ a = b := by
  constructor
  · intro h
    simp only [DisplayConfigurationOutput.operator_eq, Bool.and_eq_true, beq_iff_eq,
      modes_equal_iff] at h
    cases a; cases b
    simp_all
  · intro h
    subst h
    simp [DisplayConfigurationOutput.operator_eq, (modes_equal_iff a.modes a.modes).mpr rfl]

/-- C20: equality of `DisplayConfigurationOutput` values is reflexive and
symmetric, a copy compares equal to its original in both orders, and two
outputs that differ in `id`, `card_id`, the mode list (hence in the number of
modes, or in the size or refresh rate of a mode), `physical_size_mm`,
`connected`, `current_mode_index` or `preferred_mode_index` compare unequal in
both argument orders. -/
theorem output_equality (a b : DisplayConfigurationOutput) :
    a.operator_eq a = true ∧
    a.operator_eq b = b.operator_eq a ∧
    (∀ copy : DisplayConfigurationOutput, copy = a →
      copy.operator_eq a = true ∧ a.operator_eq copy = true) ∧
    (a.id ≠ b.id ∨ a.card_id ≠ b.card_id ∨ a.modes ≠ b.modes ∨
        a.physical_size_mm ≠ b.physical_size_mm ∨ a.connected ≠ b.connected ∨
        a.current_mode_index ≠ b.current_mode_index ∨
        a.preferred_mode_index ≠ b.preferred_mode_index →
      a.operator_eq b = false ∧ b.operator_eq a = false ∧
      a.operator_ne b = true ∧ b.operator_ne a = true) ∧
    (a.modes.length ≠ b.modes.length ∨
        (∃ (i : Nat) (m1 m2 : DisplayConfigurationMode),
          a.modes[i]? = some m1 ∧ b.modes[i]? = some m2 ∧
          (m1.size ≠ m2.size ∨ m1.vrefresh_hz ≠ m2.vrefresh_hz)) →
      a.modes ≠ b.modes) := by
  have hrefl : ∀ x : DisplayConfigurationOutput, x.operator_eq x = true :=
    fun x => (output_operator_eq_iff x x).mpr rfl
  have hne : ∀ x y : DisplayConfigurationOutput, x ≠ y → x.operator_eq y = false := by
    intro x y hxy
    cases h : x.operator_eq y
    · rfl
    · exact absurd ((output_operator_eq_iff x y).mp h) hxy
  refine ⟨hrefl a, ?_, ?_, ?_, ?_⟩
  · by_cases h : a = b
    · subst h; rfl
    · rw [hne a b h, hne b a (fun hba => h hba.symm)]
  · intro copy hc
    subst hc
    exact ⟨hrefl copy, hrefl copy⟩
  · intro hdiff
    have hab : a ≠ b := by
      intro heq
      subst heq
      simp at hdiff
    have h1 := hne a b hab
    have h2 := hne b a (fun hba => hab hba.symm)
    simp [DisplayConfigurationOutput.operator_ne, h1, h2]
  · intro hdiff heq
    rcases hdiff with hlen | ⟨i, m1, m2, h1, h2, hm⟩
    · exact hlen (by rw [heq])
    · rw [heq, h2] at h1
      simp only [Option.some.injEq] at h1
      subst h1
      simp at hm

/-- The checks of the tests `output_equality`, `output_inequality_id`,
`output_inequality_modes`, `output_inequality_physical_size`,
`output_inequality_connection`, `output_inequality_current_mode` and
`output_inequality_preferred_mode` on `tmpl_output`. -/
theorem output_equality_witness :
    tmpl_output.operator_eq tmpl_output = true ∧
    tmpl_output.operator_ne { tmpl_output with id := 15 } = true ∧
    ({ tmpl_output with id := 15 } : DisplayConfigurationOutput).operator_ne tmpl_output
      = true ∧
    tmpl_output.operator_ne { tmpl_output with card_id := 12 } = true ∧
    tmpl_output.operator_ne
      { tmpl_output with
        modes := [⟨⟨10, 20⟩, 60⟩, ⟨⟨10, 20⟩, 59.9⟩, ⟨⟨15, 20⟩, 59⟩] } = true ∧
    tmpl_output.operator_ne
      { tmpl_output with modes := [⟨⟨10, 20⟩, 60⟩, ⟨⟨10, 20⟩, 59⟩] } = true ∧
    tmpl_output.operator_ne { tmpl_output with physical_size_mm := ⟨11, 20⟩ } = true ∧
    tmpl_output.operator_ne { tmpl_output with connected := false } = true ∧
    tmpl_output.operator_ne { tmpl_output with current_mode_index := 0 } = true ∧
    tmpl_output.operator_ne { tmpl_output with preferred_mode_index := 1 } = true :=
  ⟨(output_equality tmpl_output tmpl_output).1,
    ((output_equality tmpl_output { tmpl_output with id := 15 }).2.2.2.1
      (Or.inl (by decide))).2.2.1,
    ((output_equality tmpl_output { tmpl_output with id := 15 }).2.2.2.1
      (Or.inl (by decide))).2.2.2,
    ((output_equality tmpl_output { tmpl_output with card_id := 12 }).2.2.2.1
      (Or.inr (Or.inl (by decide)))).2.2.1,
    ((output_equality tmpl_output _).2.2.2.1
      (Or.inr (Or.inr (Or.inl (by
        simp only [tmpl_output, ne_eq, List.cons.injEq, DisplayConfigurationMode.mk.injEq]
        norm_num))))).2.2.1,
    ((output_equality tmpl_output _).2.2.2.1
      (Or.inr (Or.inr (Or.inl (by simp [tmpl_output]))))).2.2.1,
    ((output_equality tmpl_output { tmpl_output with physical_size_mm := ⟨11, 20⟩ }).2.2.2.1
      (Or.inr (Or.inr (Or.inr (Or.inl (by decide)))))).2.2.1,
    ((output_equality tmpl_output { tmpl_output with connected := false }).2.2.2.1
      (Or.inr (Or.inr (Or.inr (Or.inr (Or.inl (by decide))))))).2.2.1,
    ((output_equality tmpl_output { tmpl_output with current_mode_index := 0 }).2.2.2.1
      (Or.inr (Or.inr (Or.inr (Or.inr (Or.inr (Or.inl (by decide)))))))).2.2.1,
    ((output_equality tmpl_output { tmpl_output with preferred_mode_index := 1 }).2.2.2.1
      (Or.inr (Or.inr (Or.inr (Or.inr (Or.inr (Or.inr (by decide)))))))).2.2.1⟩

end graphics

namespace client

open compositor

/-! ## The display info of a connection -/

theorem find_active_output_found (config : MirDisplayConfiguration) (k : Nat)
    (o : MirDisplayOutput) (hk : config.outputs[k]? = some o) (hact : o.is_active = true) :
    ∀ (remaining i : Nat), i ≤ k → k < i + remaining →
      (∀ j p, i ≤ j → j < k → config.outputs[j]? = some p → p.is_active = false) →
      find_active_output config remaining i = .ok (some o) := by
  intro remaining
  induction remaining with
  | zero => intro i h1 h2; omega
  | succ n ih =>
    intro i h1 h2 hbefore
    unfold find_active_output
    by_cases hik : i = k
    · subst hik
      simp [hk, hact]
    · have hlt : i < k := by omega
      have hi : i < config.outputs.length := by
        have := (List.getElem?_eq_some_iff.mp hk).1
        omega
      have hget : config.outputs[i]? = some config.outputs[i] := List.getElem?_eq_getElem hi
      have hna := hbefore i _ (Nat.le_refl i) hlt hget
      simp only [hget, hna, Bool.false_eq_true, if_false]
      exact ih (i + 1) (by omega) (by omega)
        (fun j p hj hjk hp => hbefore j p (by omega) hjk hp)

theorem find_active_output_none (config : MirDisplayConfiguration) :
    ∀ (remaining i : Nat), i + remaining ≤ config.outputs.length →
      (∀ p ∈ config.outputs, p.is_active = false) →
      find_active_output config remaining i = .ok none := by
  intro remaining
  induction remaining with
  | zero => intro i _ _; rfl
  | succ n ih =>
    intro i hlen hnone
    unfold find_active_output
    have hi : i < config.outputs.length := by omega
    have hget : config.outputs[i]? = some config.outputs[i] := List.getElem?_eq_getElem hi
    have hna := hnone _ (List.getElem_mem hi)
    simp only [hget, hna, Bool.false_eq_true, if_false]
    exact ih (i + 1) (by omega) hnone

theorem copy_output_formats_ok (state : MirDisplayOutput) :
    ∀ (remaining i : Nat) (dest : List MirPixelFormat),
      i + remaining ≤ state.output_formats.length → i + remaining ≤ dest.length →
      ∃ formats, copy_output_formats state remaining i dest = .ok formats ∧
        formats.length = dest.length ∧
        ∀ k, formats[k]? =
          if i ≤ k ∧ k < i + remaining then state.output_formats[k]? else dest[k]? := by
  intro remaining
  induction remaining with
  | zero =>
    intro i dest _ _
    refine ⟨dest, rfl, rfl, ?_⟩
    intro k
    have : ¬ (i ≤ k ∧ k < i) := by omega
    simp [this]
  | succ n ih =>
    intro i dest h1 h2
    unfold copy_output_formats
    have hi : i < state.output_formats.length := by omega
    have hget : state.output_formats[i]? = some state.output_formats[i] :=
      List.getElem?_eq_getElem hi
    have hd : i < dest.length := by omega
    simp only [hget, hd, if_true]
    obtain ⟨formats, hf, hlen, hall⟩ := ih (i + 1) (dest.set i state.output_formats[i])
      (by omega) (by simp only [List.length_set]; omega)
    refine ⟨formats, hf, by simpa using hlen, ?_⟩
    intro k
    rw [hall k]
    by_cases hki : k = i
    · subst hki
      have h3 : ¬ (k + 1 ≤ k ∧ k < k + 1 + n) := by omega
      have h4 : k ≤ k ∧ k < k + (n + 1) := by omega
      simp [h3, h4, hget, hd]
    · by_cases hr : i + 1 ≤ k ∧ k < i + 1 + n
      · have h4 : i ≤ k ∧ k < i + (n + 1) := by omega
        simp [hr, h4]
      · have h4 : ¬ (i ≤ k ∧ k < i + (n + 1)) := by omega
        have hne : i ≠ k := fun h => hki h.symm
        simp [hr, h4, List.getElem?_set_ne hne]

theorem display_info_of_active_output (max : Nat) (config : MirDisplayConfiguration)
    (display_info : MirDisplayInfo) (hwf : config.well_formed)
    (hmax : display_info.supported_pixel_format.length = max)
    (k : Nat) (o : MirDisplayOutput) (hk : config.outputs[k]? = some o)
    (hact : o.is_active = true)
    (hfirst : ∀ j p, j < k → config.outputs[j]? = some p → p.is_active = false) :
    ∃ (mode : MirDisplayMode) (formats : List MirPixelFormat),
      o.modes[o.current_mode]? = some mode ∧
      mir_connection_get_display_info max (some config) display_info
        = .ok { width := mode.horizontal_resolution, height := mode.vertical_resolution,
                supported_pixel_format_items := min o.num_output_formats max,
                supported_pixel_format := formats } ∧
      formats.length = max ∧
      ∀ i, formats[i]? =
        if i < min o.num_output_formats max then o.output_formats[i]?
        else display_info.supported_pixel_format[i]? := by
  have hklt : k < config.outputs.length := (List.getElem?_eq_some_iff.mp hk).1
  have hmem : o ∈ config.outputs := List.mem_iff_getElem?.mpr ⟨k, hk⟩
  obtain ⟨hmodes, hformats⟩ := hwf.2 o hmem
  have hn : ¬ config.num_outputs < 1 := by have := hwf.1; omega
  have hfind := find_active_output_found config k o hk hact config.num_outputs 0
    (Nat.zero_le k) (by have := hwf.1; omega) (fun j p _ hjk hp => hfirst j p hjk hp)
  have hcur : o.current_mode < o.modes.length := by
    simp only [MirDisplayOutput.is_active, Bool.and_eq_true, decide_eq_true_eq] at hact
    omega
  have hitems : (if o.num_output_formats > max then max else o.num_output_formats)
      = min o.num_output_formats max := by
    split <;> omega
  obtain ⟨formats, hf, hlen, hall⟩ := copy_output_formats_ok o
    (min o.num_output_formats max) 0 display_info.supported_pixel_format
    (by omega) (by omega)
  refine ⟨o.modes[o.current_mode], formats, List.getElem?_eq_getElem hcur, ?_,
    by omega, ?_⟩
  · simp only [mir_connection_get_display_info, hn, if_false, hfind,
      List.getElem?_eq_getElem hcur, hitems, hf]
  · intro i
    rw [hall i]
    simp

/-- C21, as stated, fails: for the configuration without outputs no output is
used, connected and in a valid mode, yet `display_info` is not filled with
zeros: it is left as it was. -/
theorem display_info_untouched_without_outputs :
    (∀ o ∈ empty_configuration.outputs, o.is_active = false) ∧
    mir_connection_get_display_info 2 (some empty_configuration) example_display_info
      = .ok example_display_info ∧
    example_display_info ≠ example_display_info.zeroed :=
  ⟨by decide, rfl, by decide⟩

/-- C21, amended: for every well-formed display configuration with at least
one output, `mir_connection_get_display_info` reports the width and height of
the current mode of the first output (lowest index) that is used, connected and
has `current_mode < num_modes`; when no output satisfies this, `display_info`
is filled with zeros. -/
theorem display_info_first_active_output (max : Nat) (config : MirDisplayConfiguration)
    (display_info : MirDisplayInfo) (hwf : config.well_formed)
    (hmax : display_info.supported_pixel_format.length = max)
    (hsome : 1 ≤ config.num_outputs) :
    (∀ (k : Nat) (o : MirDisplayOutput), config.outputs[k]? = some o → o.is_active = true →
      (∀ j p, j < k → config.outputs[j]? = some p → p.is_active = false) →
      ∃ (mode : MirDisplayMode) (info : MirDisplayInfo),
        o.modes[o.current_mode]? = some mode ∧
        mir_connection_get_display_info max (some config) display_info = .ok info ∧
        info.width = mode.horizontal_resolution ∧ info.height = mode.vertical_resolution) ∧
    ((∀ p ∈ config.outputs, p.is_active = false) →
      mir_connection_get_display_info max (some config) display_info
        = .ok display_info.zeroed) := by
  constructor
  · intro k o hk hact hfirst
    obtain ⟨mode, formats, hmode, hres, _, _⟩ :=
      display_info_of_active_output max config display_info hwf hmax k o hk hact hfirst
    exact ⟨mode, _, hmode, hres, rfl, rfl⟩
  · intro hnone
    have hn : ¬ config.num_outputs < 1 := by omega
    have hfind := find_active_output_none config config.num_outputs 0
      (by have := hwf.1; omega) hnone
    simp only [mir_connection_get_display_info, hn, if_false, hfind]

theorem example_configuration_well_formed : example_configuration.well_formed := by
  refine ⟨rfl, ?_⟩
  intro o ho
  simp only [example_configuration, List.mem_cons, List.mem_singleton, List.not_mem_nil,
    or_false] at ho
  rcases ho with h | h <;> subst h <;> exact ⟨rfl, rfl⟩

theorem display_info_first_active_output_witness :
    example_configuration.well_formed ∧ 1 ≤ example_configuration.num_outputs ∧
    mir_connection_get_display_info 2 (some example_configuration) example_display_info
      = .ok { width := 1024, height := 768, supported_pixel_format_items := 2,
              supported_pixel_format :=
                [.mir_pixel_format_abgr_8888, .mir_pixel_format_xbgr_8888] } ∧
    (∃ (mode : MirDisplayMode) (info : MirDisplayInfo),
      (example_output true true).modes[(example_output true true).current_mode]? = some mode ∧
      mir_connection_get_display_info 2 (some example_configuration) example_display_info
        = .ok info ∧
      info.width = mode.horizontal_resolution ∧ info.height = mode.vertical_resolution) :=
  ⟨example_configuration_well_formed, by decide, rfl,
    (display_info_first_active_output 2 example_configuration example_display_info
      example_configuration_well_formed rfl (by decide)).1 1 (example_output true true)
      rfl rfl (by
        intro j p hj hp
        have hj0 : j = 0 := by omega
        subst hj0
        simp only [example_configuration, List.getElem?_cons_zero, Option.some.injEq] at hp
        subst hp
        rfl)⟩

/-- C28: whenever `mir_connection_get_display_info` finds an active output (the
first output that is used, connected and has `current_mode < num_modes`) in a
well-formed configuration, `supported_pixel_format_items` is the minimum of
that output's `num_output_formats` and `mir_supported_pixel_format_max`, entry
`i` of `supported_pixel_format` is that output's `output_formats[i]` for every
`i` below that count, every other entry keeps its value, and the array keeps
its `mir_supported_pixel_format_max` entries: nothing is written at or beyond
that index. -/
theorem display_info_supported_formats (max : Nat) (config : MirDisplayConfiguration)
    (display_info : MirDisplayInfo) (hwf : config.well_formed)
    (hmax : display_info.supported_pixel_format.length = max)
    (k : Nat) (o : MirDisplayOutput) (hk : config.outputs[k]? = some o)
    (hact : o.is_active = true)
    (hfirst : ∀ j p, j < k → config.outputs[j]? = some p → p.is_active = false) :
    ∃ info : MirDisplayInfo,
      mir_connection_get_display_info max (some config) display_info = .ok info ∧
      info.supported_pixel_format_items = min o.num_output_formats max ∧
      (∀ i, i < min o.num_output_formats max →
        ∃ format, o.output_formats[i]? = some format ∧
          info.supported_pixel_format[i]? = some format) ∧
      (∀ i, min o.num_output_formats max ≤ i →
        info.supported_pixel_format[i]? = display_info.supported_pixel_format[i]?) ∧
      info.supported_pixel_format.length = max ∧
      (∀ i, max ≤ i → info.supported_pixel_format[i]? = none) := by
  obtain ⟨mode, formats, _, hres, hlen, hall⟩ :=
    display_info_of_active_output max config display_info hwf hmax k o hk hact hfirst
  have hmem : o ∈ config.outputs := List.mem_iff_getElem?.mpr ⟨k, hk⟩
  obtain ⟨_, hformats⟩ := hwf.2 o hmem
  refine ⟨_, hres, rfl, ?_, ?_, hlen, ?_⟩
  · intro i hi
    have hil : i < o.output_formats.length := by omega
    refine ⟨o.output_formats[i], List.getElem?_eq_getElem hil, ?_⟩
    show formats[i]? = _
    rw [hall i]
    simp [hi, List.getElem?_eq_getElem hil]
  · intro i hi
    show formats[i]? = _
    rw [hall i]
    have : ¬ i < min o.num_output_formats max := by omega
    simp [this]
  · intro i hi
    show formats[i]? = none
    exact List.getElem?_eq_none (by omega)

theorem display_info_supported_formats_witness :
    example_configuration.well_formed ∧
    (example_output true true).is_active = true ∧
    (example_output true true).num_output_formats = 3 ∧
    (∃ info : MirDisplayInfo,
      mir_connection_get_display_info 2 (some example_configuration) example_display_info
        = .ok info ∧
      info.supported_pixel_format_items = min 3 2 ∧
      info.supported_pixel_format.length = 2) :=
  ⟨example_configuration_well_formed, rfl, rfl,
    (display_info_supported_formats 2 example_configuration example_display_info
      example_configuration_well_formed rfl 1 (example_output true true) rfl rfl (by
        intro j p hj hp
        have hj0 : j = 0 := by omega
        subst hj0
        simp only [example_configuration, List.getElem?_cons_zero, Option.some.injEq] at hp
        subst hp
        rfl)).elim
      (fun info h => ⟨info, h.1, h.2.1, h.2.2.2.2.1⟩)⟩

end client

namespace compositor

/-! ## The first element of the freshly allocated list -/

theorem create_sync_swapper_new_buffers_no_buffers {σ : Type}
    (a : GraphicBufferAllocator σ) (n : Int) (hn : n ≤ 0)
    (actual requested : BufferProperties) (w : AllocatorWorld σ) :
    SwapperFactory.fill_buffer_list { gr_allocator := some a, number_of_buffers := n } [] n
        requested w = (.ok [], w) ∧
    SwapperFactory.create_sync_swapper_new_buffers
        { gr_allocator := some a, number_of_buffers := n } actual requested w
      = (.error .undefined_behaviour, actual, w) := by
  have h0 : n.toNat = 0 := by omega
  constructor
  · simp [SwapperFactory.fill_buffer_list, h0, fill_buffer_list_loop]
  · simp [SwapperFactory.create_sync_swapper_new_buffers, SwapperFactory.fill_buffer_list, h0,
      fill_buffer_list_loop]

/-- C27, at the failing input: the constructor accepts `number_of_buffers = 0`;
`fill_buffer_list` then leaves the list empty, without any `alloc_buffer` call,
and `create_sync_swapper_new_buffers` reads `list[0]` of that empty list, which
is undefined behaviour. -/
theorem create_sync_swapper_new_buffers_reads_empty_list :
    SwapperFactory.new (some (counting_allocator 100)) 0 = .ok (example_factory 100 0) ∧
    (example_factory 100 0).fill_buffer_list [] 0 example_properties fresh_world
      = (.ok [], fresh_world) ∧
    (example_factory 100 0).create_sync_swapper_new_buffers stale_properties
        example_properties fresh_world
      = (.error .undefined_behaviour, stale_properties, fresh_world) :=
  ⟨rfl,
    (create_sync_swapper_new_buffers_no_buffers (counting_allocator 100) 0 (by decide)
      stale_properties example_properties fresh_world).1,
    (create_sync_swapper_new_buffers_no_buffers (counting_allocator 100) 0 (by decide)
      stale_properties example_properties fresh_world).2⟩

end compositor

namespace frontend

open compositor

/-! ## The XWayland window manager -/

theorem handle_unmap_notify_ignores_unmap_notify (self : XWaylandWM)
    (event : xcb_unmap_notify_event_t) (calls : List WmCall)
    (h : is_unmap_notify event = true) : self.handle_unmap_notify event calls = calls := by
  have hne : (event.response_type &&& not_0x80) ≠ 0 := by
    simp only [is_unmap_notify, beq_iff_eq] at h
    rw [h]
    decide
  unfold XWaylandWM.handle_unmap_notify
  split
  · rfl
  · simp [hne]

/-- C22, at the failing input: a non-synthetic UnmapNotify (`response_type` 18,
bit `0x80` clear) for window 5, which is not the window manager's own and has
the known surface 50, is dispatched to `handle_unmap_notify`, and the handler
makes no call at all: the surface is not unmapped, its workspace is not set
and `xcb_unmap_window` is not issued, because `response_type & ~0x80` is the
event code 18 and not the send-event bit. -/
theorem handle_unmap_notify_drops_real_unmap :
    is_unmap_notify ⟨18, 1, 5⟩ = true ∧
    (18 &&& 0x80 : Nat) = 0 ∧
    example_wm.is_ours 5 = false ∧
    example_wm.get_wm_surface 5 = some 50 ∧
    example_wm.handle_unmap_notify ⟨18, 1, 5⟩ [] = [] ∧
    (∀ (self : XWaylandWM) (event : xcb_unmap_notify_event_t) (calls : List WmCall),
      is_unmap_notify event = true → self.handle_unmap_notify event calls = calls) :=
  ⟨by decide, by decide, by decide, by decide, by decide,
    handle_unmap_notify_ignores_unmap_notify⟩

/-- C24, at the failing input: for the configure request for window 5 whose
`value_mask` selects x and the border width, `xcb_configure_window` gets the
request's mask 17, which has two bits set, with the one-entry value list `[3]`
(x only); the list with one entry per bit set is `[3, 2]`. For a request that
selects the border width alone nothing is forwarded at all. -/
theorem handle_configure_request_omits_border_width :
    border_width_request.value_mask = 17 ∧
    example_wm.handle_configure_request border_width_request []
      = [.xcb_configure_window 5 17 [3], .xcb_flush] ∧
    values_per_mask_bit border_width_request = [3, 2] ∧
    example_wm.handle_configure_request
      { border_width_request with value_mask := XCB_CONFIG_WINDOW_BORDER_WIDTH } [] = [] := by
  decide

theorem configure_request_values_without_border_width (event : xcb_configure_request_event_t)
    (h : event.value_mask &&& XCB_CONFIG_WINDOW_BORDER_WIDTH = 0) :
    configure_request_values event = values_per_mask_bit event := by
  simp [configure_request_values, values_per_mask_bit, h]

theorem net_wm_state_loop_reads (atoms : XcbAtoms) (reply : AtomReply) :
    ∀ (remaining i : Nat) (s : NetWmState), i + remaining ≤ reply.value.length →
      (net_wm_state_loop atoms reply remaining i s).1 = .ok () ∧
      (net_wm_state_loop atoms reply remaining i s).2.indices_read
        = s.indices_read ++ List.range' i remaining ∧
      (net_wm_state_loop atoms reply remaining i s).2.maximized = s.maximized := by
  intro remaining
  induction remaining with
  | zero => intro i s _; simp [net_wm_state_loop]
  | succ n ih =>
    intro i s h
    have hi : i < reply.value.length := by omega
    unfold net_wm_state_loop
    simp only [List.getElem?_eq_getElem hi]
    obtain ⟨h1, h2, h3⟩ := ih (i + 1)
      { s with
        fullscreen := if reply.value[i] = atoms.net_wm_state_fullscreen && !s.fullscreen
          then true else s.fullscreen,
        indices_read := s.indices_read ++ [i] } (by omega)
    refine ⟨h1, ?_, h3⟩
    rw [h2]
    simp [List.range'_succ]

theorem read_net_wm_state_reads_past_end (atoms : XcbAtoms) (reply : AtomReply)
    (s : NetWmState) (hwf : reply.value.length = reply.value_len) :
    (read_net_wm_state atoms reply s).1 = .error .undefined_behaviour ∧
    (read_net_wm_state atoms reply s).2.indices_read
      = s.indices_read ++ List.range' 0 reply.value_len ++ [reply.value_len] ∧
    (read_net_wm_state atoms reply s).2.maximized = s.maximized := by
  obtain ⟨h1, h2, h3⟩ := net_wm_state_loop_reads atoms reply reply.value_len 0 s (by omega)
  have hnone : reply.value[reply.value_len]? = none := List.getElem?_eq_none (by omega)
  unfold read_net_wm_state
  rcases hl : net_wm_state_loop atoms reply reply.value_len 0 s with ⟨r, s1⟩
  rw [hl] at h1 h2 h3
  simp only at h1 h2 h3
  subst h1
  simp only [net_wm_state_maximized_test, hnone]
  exact ⟨trivial, by simp [h2], h3⟩

/-- C25, at the failing input: for the `_NET_WM_STATE` reply whose one atom is
`maximized_horz`, the case reads the atom array at index 0 and then at index 1,
which is `value_len` and beyond the array (undefined behaviour), and
`maximized` is not set although an entry of the array is the `maximized_horz`
atom; and every reply whose array has `value_len` entries is read at index
`value_len`. -/
theorem read_net_wm_state_out_of_bounds :
    (read_net_wm_state example_atoms ⟨1, [301]⟩ ⟨false, false, []⟩).1
      = .error .undefined_behaviour ∧
    (read_net_wm_state example_atoms ⟨1, [301]⟩ ⟨false, false, []⟩).2.indices_read = [0, 1] ∧
    (read_net_wm_state example_atoms ⟨1, [301]⟩ ⟨false, false, []⟩).2.maximized = false ∧
    (∀ (atoms : XcbAtoms) (reply : AtomReply) (s : NetWmState),
      reply.value.length = reply.value_len →
      reply.value_len ∈ (read_net_wm_state atoms reply s).2.indices_read) :=
  ⟨rfl, rfl, rfl, fun atoms reply s hwf => by
    rw [(read_net_wm_state_reads_past_end atoms reply s hwf).2.1]
    simp⟩

end frontend

namespace miral

open compositor

/-! ## The display configuration options -/

theorem find_first (p : MirPixelFormat → Bool) (l : List MirPixelFormat) (k : Nat)
    (f : MirPixelFormat) (hk : l[k]? = some f) (hp : p f = true)
    (hfirst : ∀ j g, j < k → l[j]? = some g → p g = false) : l.find? p = some f := by
  induction l generalizing k with
  | nil => simp at hk
  | cons a rest ih =>
    cases k with
    | zero =>
      simp only [List.getElem?_cons_zero, Option.some.injEq] at hk
      subst hk
      simp [List.find?_cons, hp]
    | succ n =>
      have ha : p a = false := hfirst 0 a (Nat.succ_pos n) (by simp)
      simp only [List.find?_cons, ha]
      exact ih n (by simpa using hk)
        (fun j g hj hg => hfirst (j + 1) g (by omega) (by simpa using hg))

theorem find_none (p : MirPixelFormat → Bool) (l : List MirPixelFormat)
    (h : ∀ f ∈ l, p f = false) : l.find? p = none := by
  rw [List.find?_eq_none]
  intro f hf
  simp [h f hf]

/-- C23: `PixelFormatSelector::apply_to` runs the base policy and then, for
every output the base policy leaves, sets `current_format` to the first entry
of `pixel_formats` whose has-alpha status equals `with_alpha` when the output
is connected and used and there is such an entry, changing nothing else; an
output that is not connected, or not used, or has no such entry is exactly as
the base policy left it. -/
theorem pixel_format_selector_apply_to (self : PixelFormatSelector)
    (conf : List UserDisplayConfigurationOutput) (i : Nat)
    (o : UserDisplayConfigurationOutput) (ho : (self.base_policy conf)[i]? = some o) :
    (self.apply_to conf).length = (self.base_policy conf).length ∧
    (o.connected = true → o.used = true →
      ∀ (k : Nat) (f : MirPixelFormat), o.pixel_formats[k]? = some f →
        contains_alpha f = self.with_alpha →
        (∀ j g, j < k → o.pixel_formats[j]? = some g → contains_alpha g ≠ self.with_alpha) →
        (self.apply_to conf)[i]? = some { o with current_format := f }) ∧
    ((o.connected = false ∨ o.used = false ∨
        ∀ f ∈ o.pixel_formats, contains_alpha f ≠ self.with_alpha) →
      (self.apply_to conf)[i]? = some o) := by
  have hget : (self.apply_to conf)[i]? = some (self.select_format o) := by
    simp [PixelFormatSelector.apply_to, List.getElem?_map, ho]
  refine ⟨by simp [PixelFormatSelector.apply_to], ?_, ?_⟩
  · intro hc hu k f hk hf hfirst
    rw [hget]
    have hfind := find_first (fun format => contains_alpha format == self.with_alpha)
      o.pixel_formats k f hk (by simp [hf])
      (fun j g hj hg => by simpa using hfirst j g hj hg)
    simp [PixelFormatSelector.select_format, hc, hu, hfind]
  · intro h
    rw [hget]
    rcases h with h | h | h
    · simp [PixelFormatSelector.select_format, h]
    · simp [PixelFormatSelector.select_format, h]
    · have hfind := find_none (fun format => contains_alpha format == self.with_alpha)
        o.pixel_formats (fun f hf => by simpa using h f hf)
      unfold PixelFormatSelector.select_format
      split
      · rfl
      · rw [hfind]

theorem pixel_format_selector_apply_to_witness :
    ((example_selector true).base_policy [example_output true true example_modes])[0]?
      = some (example_output true true example_modes) ∧
    (example_output true true example_modes).pixel_formats[1]?
      = some MirPixelFormat.mir_pixel_format_argb_8888 ∧
    ((example_selector true).apply_to [example_output true true example_modes])[0]?
      = some { example_output true true example_modes with
               current_format := MirPixelFormat.mir_pixel_format_argb_8888 } :=
  ⟨rfl, rfl,
    (pixel_format_selector_apply_to (example_selector true)
      [example_output true true example_modes] 0 (example_output true true example_modes)
      rfl).2.1 rfl rfl 1 .mir_pixel_format_argb_8888 rfl rfl (by
        intro j g hj hg
        have hj0 : j = 0 := by omega
        subst hj0
        simp only [example_output, List.getElem?_cons_zero, Option.some.injEq] at hg
        subst hg
        decide)⟩

theorem select_mode_of_size_lt (size : geometry.Size) (bound : Nat) :
    ∀ (modes : List graphics.DisplayConfigurationMode) (index current : Nat),
      current < bound → index + modes.length ≤ bound →
      select_mode_of_size size modes index current < bound := by
  intro modes
  induction modes with
  | nil => intro index current h _; simpa [select_mode_of_size] using h
  | cons m rest ih =>
    intro index current h hb
    simp only [List.length_cons] at hb
    unfold select_mode_of_size
    apply ih
    · split <;> omega
    · omega

theorem select_mode_index_lt (mode_index : Nat)
    (modes : List graphics.DisplayConfigurationMode) (h : modes ≠ []) :
    select_mode_index mode_index modes < modes.length ∧
    (mode_index < modes.length → select_mode_index mode_index modes = mode_index) ∧
    (modes.length ≤ mode_index → select_mode_index mode_index modes = 0) := by
  have hpos : 0 < modes.length := List.length_pos.mpr h
  have he : modes.isEmpty = false := by
    cases modes with
    | nil => exact absurd rfl h
    | cons _ _ => rfl
  unfold select_mode_index
  simp only [he, Bool.false_eq_true, if_false]
  refine ⟨?_, ?_, ?_⟩
  · split <;> omega
  · intro hlt
    simp [Nat.not_le.mpr hlt]
  · intro hge
    simp [hge]

theorem apply_to_output_spec (self : StaticDisplayConfigurationPolicy)
    (o : UserDisplayConfigurationOutput) :
    (self.apply_to_output o).1.modes = o.modes ∧
    (o.connected = true → o.modes ≠ [] →
      (self.apply_to_output o).1.used = true ∧
      (self.apply_to_output o).1.current_mode_index < o.modes.length) ∧
    (¬ (o.connected = true ∧ o.modes ≠ []) →
      (self.apply_to_output o).1.used = false ∧
      (self.apply_to_output o).1.power_mode = .mir_power_mode_off) := by
  refine ⟨?_, ?_, ?_⟩
  · unfold StaticDisplayConfigurationPolicy.apply_to_output
    split <;> rfl
  · intro hc hm
    have hpos : 0 < o.modes.length := List.length_pos.mpr hm
    have hsel := (select_mode_index_lt o.preferred_mode_index o.modes hm).1
    simp only [StaticDisplayConfigurationPolicy.apply_to_output, hc, hpos, gt_iff_lt,
      decide_True, Bool.and_self, if_true, true_and]
    split
    · exact select_mode_of_size_lt _ _ _ _ _ hsel (by omega)
    · exact hsel
  · intro h
    have hcond : (o.connected && decide (o.modes.length > 0)) = false := by
      cases hc : o.connected with
      | false => rfl
      | true =>
        have : o.modes = [] := by
          by_contra hne
          exact h ⟨hc, hne⟩
        simp [this]
    simp [StaticDisplayConfigurationPolicy.apply_to_output, hcond]

theorem apply_to_getElem (conf : List UserDisplayConfigurationOutput) :
    ∀ (self : StaticDisplayConfigurationPolicy) (i : Nat) (o : UserDisplayConfigurationOutput),
      conf[i]? = some o →
      ∃ policy : StaticDisplayConfigurationPolicy,
        (self.apply_to conf).1[i]? = some (policy.apply_to_output o).1 := by
  induction conf with
  | nil => intro self i o h; simp at h
  | cons c rest ih =>
    intro self i o h
    cases i with
    | zero =>
      simp only [List.getElem?_cons_zero, Option.some.injEq] at h
      subst h
      exact ⟨self, by simp [StaticDisplayConfigurationPolicy.apply_to]⟩
    | succ n =>
      obtain ⟨policy, hp⟩ := ih (self.apply_to_output c).2 n o (by simpa using h)
      exact ⟨policy, by simpa [StaticDisplayConfigurationPolicy.apply_to] using hp⟩

/-- C26: for every non-empty mode list and every requested index,
`select_mode_index` returns an index strictly below `modes.size()` (the
requested index when it is in range, 0 otherwise); and after
`StaticDisplayConfigurationPolicy::apply_to`, whatever the policy's map holds,
every output that is connected and has at least one mode is marked used and has
`current_mode_index < modes.size()`, while every other output is marked unused
with power mode off. -/
theorem static_policy_mode_index_in_range (self : StaticDisplayConfigurationPolicy)
    (conf : List UserDisplayConfigurationOutput) (mode_index : Nat)
    (modes : List graphics.DisplayConfigurationMode) :
    (modes ≠ [] →
      select_mode_index mode_index modes < modes.length ∧
      (mode_index < modes.length → select_mode_index mode_index modes = mode_index) ∧
      (modes.length ≤ mode_index → select_mode_index mode_index modes = 0)) ∧
    (∀ (i : Nat) (o : UserDisplayConfigurationOutput), conf[i]? = some o →
      ∃ after : UserDisplayConfigurationOutput,
        (self.apply_to conf).1[i]? = some after ∧ after.modes = o.modes ∧
        (o.connected = true → o.modes ≠ [] →
          after.used = true ∧ after.current_mode_index < after.modes.length) ∧
        (¬ (o.connected = true ∧ o.modes ≠ []) →
          after.used = false ∧ after.power_mode = .mir_power_mode_off)) := by
  refine ⟨select_mode_index_lt mode_index modes, ?_⟩
  intro i o ho
  obtain ⟨policy, hp⟩ := apply_to_getElem conf self i o ho
  obtain ⟨h1, h2, h3⟩ := apply_to_output_spec policy o
  refine ⟨_, hp, h1, ?_, h3⟩
  intro hc hm
  rw [h1]
  exact h2 hc hm

theorem static_policy_mode_index_in_range_witness :
    example_modes ≠ [] ∧ select_mode_index 7 example_modes = 0 ∧
    ([example_output true false example_modes, example_output true true []] :
      List UserDisplayConfigurationOutput)[0]? = some (example_output true false example_modes) ∧
    ((StaticDisplayConfigurationPolicy.new.apply_to
      [example_output true false example_modes, example_output true true []]).1.map
        (fun o => (o.used, o.current_mode_index)))
      = [(true, 1), (false, 9)] ∧
    select_mode_index 7 example_modes < example_modes.length :=
  ⟨by decide, by decide, rfl, by decide,
    ((static_policy_mode_index_in_range StaticDisplayConfigurationPolicy.new
      [example_output true false example_modes, example_output true true []] 7
      example_modes).1 (by decide)).1⟩

end miral

namespace graphics

namespace rpi

open compositor

/-! ## The DispmanX display buffer -/

theorem added_layers_append (l1 l2 : List DispmanxCall) :
    added_layers (l1 ++ l2) = added_layers l1 ++ added_layers l2 := by
  induction l1 with
  | nil => rfl
  | cons c rest ih => cases c <;> simp [added_layers, ih]

theorem handle_for_candidate {σ : Type} (dx : DispmanX σ) (r : Renderable)
    (w : DispmanxWorld σ) (hc : renderable_is_overlay_candidate r = true) :
    ((dispmanx_handle_for_renderable dx r w).1 = .error (.thrown std_runtime_error) ∨
      ∃ h, (dispmanx_handle_for_renderable dx r w).1 = .ok h) ∧
    added_layers (dispmanx_handle_for_renderable dx r w).2.calls = added_layers w.calls ∧
    ((r.buffer.as_dispmanx_buffer = none →
        r.buffer.pixel_format = .mir_pixel_format_xbgr_8888) →
      ∃ h, (dispmanx_handle_for_renderable dx r w).1 = .ok h) := by
  unfold dispmanx_handle_for_renderable
  cases hd : r.buffer.as_dispmanx_buffer with
  | some d => simp
  | none =>
    cases hp : r.buffer.as_pixel_source with
    | none =>
      simp [renderable_is_overlay_candidate, is_dispmanx_capable_buffer, hd, hp] at hc
    | some stride =>
      cases hf : r.buffer.pixel_format <;>
        simp [vc_image_type_from_mir_pf, DispmanX.invoke, added_layers_append, added_layers]

theorem add_renderables_spec {σ : Type} (dx : DispmanX σ) (display update : Nat)
    (renderlist : List Renderable)
    (hall : ∀ r ∈ renderlist, renderable_is_overlay_candidate r = true) :
    ∀ (remaining layer : Nat) (current : List Nat) (w : DispmanxWorld σ),
      layer + remaining = renderlist.length →
      ((add_renderables dx display update renderlist remaining layer current w).1 = .ok () ∨
        (add_renderables dx display update renderlist remaining layer current w).1
          = .error (.thrown std_runtime_error)) ∧
      ((add_renderables dx display update renderlist remaining layer current w).1 = .ok () →
        ∃ added : List Nat,
          (add_renderables dx display update renderlist remaining layer current w).2.1
            = current ++ added ∧
          added.length = remaining ∧ (∀ e ∈ added, e ≠ DISPMANX_NO_HANDLE) ∧
          added_layers
              (add_renderables dx display update renderlist remaining layer current w).2.2.calls
            = added_layers w.calls ++ layers_of layer (renderlist.drop layer)) ∧
      ((∀ r ∈ renderlist, r.buffer.as_dispmanx_buffer = none →
          r.buffer.pixel_format = .mir_pixel_format_xbgr_8888) →
        (∀ s c, c.is_element_add = true → (dx.call s c).1 ≠ DISPMANX_NO_HANDLE) →
        (add_renderables dx display update renderlist remaining layer current w).1 = .ok ()) := by
  intro remaining
  induction remaining with
  | zero =>
    intro layer current w hlen
    have hdrop : renderlist.drop layer = [] := List.drop_eq_nil_of_le (by omega)
    simp [add_renderables, hdrop, layers_of]
  | succ n ih =>
    intro layer current w hlen
    have hl : layer < renderlist.length := by omega
    have hget : renderlist[layer]? = some renderlist[layer] := List.getElem?_eq_getElem hl
    have hdrop : renderlist.drop layer = renderlist[layer] :: renderlist.drop (layer + 1) :=
      List.drop_eq_getElem_cons hl
    have hcand := hall _ (List.getElem_mem hl)
    obtain ⟨h1, h2, h3⟩ := handle_for_candidate dx renderlist[layer] w hcand
    unfold add_renderables
    simp only [hget]
    rcases hr : dispmanx_handle_for_renderable dx renderlist[layer] w with ⟨res, w1⟩
    rw [hr] at h1 h2 h3
    simp only at h1 h2 h3
    cases res with
    | error e =>
      dsimp only
      rcases h1 with h1 | ⟨h, h1⟩
      · simp only [Except.error.injEq] at h1
        subst h1
        refine ⟨Or.inr rfl, (fun h => by cases h), ?_⟩
        intro hfmt _
        obtain ⟨h, hh⟩ := h3 (hfmt _ (List.getElem_mem hl))
        cases hh
      · cases h1
    | ok handle =>
      dsimp only
      by_cases hno : (dx.invoke w1 (.vc_dispmanx_element_add update display layer
          (dest_rect_of renderlist[layer]) handle (src_rect_of renderlist[layer]))).1
            = DISPMANX_NO_HANDLE
      · rw [if_pos hno]
        refine ⟨Or.inr rfl, (fun h => by cases h), ?_⟩
        intro _ hapi
        exact absurd hno (hapi _ _ rfl)
      · rw [if_neg hno]
        obtain ⟨i1, i2, i3⟩ := ih (layer + 1)
          (current ++ [(dx.invoke w1 (.vc_dispmanx_element_add update display layer
            (dest_rect_of renderlist[layer]) handle (src_rect_of renderlist[layer]))).1])
          (dx.invoke w1 (.vc_dispmanx_element_add update display layer
            (dest_rect_of renderlist[layer]) handle (src_rect_of renderlist[layer]))).2
          (by omega)
        refine ⟨i1, ?_, i3⟩
        intro hok
        obtain ⟨added, a1, a2, a3, a4⟩ := i2 hok
        refine ⟨(dx.invoke w1 (.vc_dispmanx_element_add update display layer
            (dest_rect_of renderlist[layer]) handle (src_rect_of renderlist[layer]))).1 :: added,
          ?_, ?_, ?_, ?_⟩
        · rw [a1]; simp
        · simp [a2]
        · intro e he
          rcases List.mem_cons.mp he with he | he
          · rw [he]; exact hno
          · exact a3 e he
        · rw [a4, hdrop]
          simp [DispmanX.invoke, added_layers_append, added_layers, layers_of, h2]

theorem remove_elements_added_layers {σ : Type} (dx : DispmanX σ) (update : Nat)
    (elements : List Nat) :
    ∀ w : DispmanxWorld σ,
      added_layers (remove_elements dx update elements w).calls = added_layers w.calls := by
  induction elements with
  | nil => intro w; rfl
  | cons e rest ih =>
    intro w
    simp [remove_elements, ih, DispmanX.invoke, added_layers_append, added_layers]

theorem all_candidates_iff (renderlist : List Renderable) :
    renderlist.all renderable_is_overlay_candidate = false ↔
      ∃ r ∈ renderlist, r.transformation ≠ Mat4.identity ∨
        (r.buffer.as_dispmanx_buffer = none ∧ r.buffer.as_pixel_source = none) := by
  have hc : ∀ r : Renderable, renderable_is_overlay_candidate r = false ↔
      (r.transformation ≠ Mat4.identity ∨
        (r.buffer.as_dispmanx_buffer = none ∧ r.buffer.as_pixel_source = none)) := by
    intro r
    simp only [renderable_is_overlay_candidate, transform_is_representable,
      is_dispmanx_capable_buffer, Bool.and_eq_false_iff, Bool.or_eq_false_iff, beq_eq_false_iff_ne,
      ne_eq]
    cases r.buffer.as_dispmanx_buffer <;> cases r.buffer.as_pixel_source <;> simp
  constructor
  · intro h
    have h2 : ¬ (∀ r ∈ renderlist, renderable_is_overlay_candidate r = true) := by
      intro hall
      rw [List.all_eq_true.mpr hall] at h
      cases h
    push_neg at h2
    obtain ⟨r, hr, hn⟩ := h2
    exact ⟨r, hr, (hc r).mp (by simpa using hn)⟩
  · rintro ⟨r, hr, hn⟩
    have hf := (hc r).mpr hn
    cases hall : renderlist.all renderable_is_overlay_candidate with
    | false => rfl
    | true =>
      rw [List.all_eq_true.mp hall r hr] at hf
      cases hf

/-- C29, as stated, fails: for the list of one renderable with the identity
transformation and a pixel-source buffer of format `argb_8888`, every
renderable is an overlay candidate, yet `overlay` neither returns false nor
returns true: it throws `std::runtime_error`, after starting an update and
removing the current element, leaving `current_elements` empty. -/
theorem overlay_throws_on_unexpected_format :
    [pixel_source_renderable .mir_pixel_format_argb_8888].all renderable_is_overlay_candidate
      = true ∧
    (example_display_buffer.overlay counting_dispmanx
        [pixel_source_renderable .mir_pixel_format_argb_8888] fresh_dispmanx_world).1
      = .error (.thrown std_runtime_error) ∧
    (example_display_buffer.overlay counting_dispmanx
        [pixel_source_renderable .mir_pixel_format_argb_8888] fresh_dispmanx_world).1
      ≠ .ok false ∧
    (example_display_buffer.overlay counting_dispmanx
        [pixel_source_renderable .mir_pixel_format_argb_8888] fresh_dispmanx_world).1
      ≠ .ok true ∧
    (example_display_buffer.overlay counting_dispmanx
        [pixel_source_renderable .mir_pixel_format_argb_8888]
        fresh_dispmanx_world).2.1.current_elements = [] ∧
    (example_display_buffer.overlay counting_dispmanx
        [pixel_source_renderable .mir_pixel_format_argb_8888] fresh_dispmanx_world).2.2.calls
      = [.vc_dispmanx_update_start 0, .vc_dispmanx_element_remove 1 7] := by
  have h : (example_display_buffer.overlay counting_dispmanx
      [pixel_source_renderable .mir_pixel_format_argb_8888] fresh_dispmanx_world)
      = (.error (.thrown std_runtime_error), { display_handle := 1, current_elements := [] },
          ⟨2, [.vc_dispmanx_update_start 0, .vc_dispmanx_element_remove 1 7]⟩) := by
    rfl
  rw [h]
  exact ⟨by decide, rfl, (fun h => by cases h), (fun h => by cases h), rfl, rfl⟩

/-- C29, amended: for every renderable list, `overlay` returns false, issuing no
DispmanX call and leaving `current_elements` unchanged, exactly when some
renderable has a non-identity transformation or a buffer that is neither a
`DispmanXBuffer` nor a `PixelSource`; otherwise it either throws
`std::runtime_error` or returns true, and when it returns true
`current_elements` has been replaced by exactly one element per renderable,
none of them `DISPMANX_NO_HANDLE`, the i-th renderable having been added at
layer i; it does return true when every buffer that is not a `DispmanXBuffer`
has the format `xbgr_8888` and no `vc_dispmanx_element_add` returns
`DISPMANX_NO_HANDLE`. -/
theorem overlay_spec {σ : Type} (self : DisplayBuffer) (dx : DispmanX σ)
    (renderlist : List Renderable) (w : DispmanxWorld σ) :
    ((self.overlay dx renderlist w).1 = .ok false ↔
      ∃ r ∈ renderlist, r.transformation ≠ Mat4.identity ∨
        (r.buffer.as_dispmanx_buffer = none ∧ r.buffer.as_pixel_source = none)) ∧
    ((self.overlay dx renderlist w).1 = .ok false →
      (self.overlay dx renderlist w).2.1 = self ∧
      (self.overlay dx renderlist w).2.2.calls = w.calls ∧
      (self.overlay dx renderlist w).2.2.state = w.state) ∧
    ((self.overlay dx renderlist w).1 = .ok false ∨
      (self.overlay dx renderlist w).1 = .ok true ∨
      (self.overlay dx renderlist w).1 = .error (.thrown std_runtime_error)) ∧
    ((self.overlay dx renderlist w).1 = .ok true →
      (self.overlay dx renderlist w).2.1.current_elements.length = renderlist.length ∧
      (∀ e ∈ (self.overlay dx renderlist w).2.1.current_elements, e ≠ DISPMANX_NO_HANDLE) ∧
      added_layers (self.overlay dx renderlist w).2.2.calls
        = added_layers w.calls ++ layers_of 0 renderlist) ∧
    ((∀ r ∈ renderlist, renderable_is_overlay_candidate r = true) →
      (∀ r ∈ renderlist, r.buffer.as_dispmanx_buffer = none →
        r.buffer.pixel_format = .mir_pixel_format_xbgr_8888) →
      (∀ s c, c.is_element_add = true → (dx.call s c).1 ≠ DISPMANX_NO_HANDLE) →
      (self.overlay dx renderlist w).1 = .ok true) := by
  cases hall : renderlist.all renderable_is_overlay_candidate with
  | false =>
    have hres : self.overlay dx renderlist w = (.ok false, self, w) := by
      simp [DisplayBuffer.overlay, hall]
    rw [hres]
    refine ⟨?_, ?_, Or.inl rfl, (fun h => by cases h), ?_⟩
    · constructor
      · intro _
        exact (all_candidates_iff renderlist).mp hall
      · intro _
        rfl
    · intro _
      exact ⟨rfl, rfl, rfl⟩
    · intro hc _ _
      rw [List.all_eq_true.mpr hc] at hall
      cases hall
  | true =>
    have hcand : ∀ r ∈ renderlist, renderable_is_overlay_candidate r = true :=
      List.all_eq_true.mp hall
    have hnot : ¬ ∃ r ∈ renderlist, r.transformation ≠ Mat4.identity ∨
        (r.buffer.as_dispmanx_buffer = none ∧ r.buffer.as_pixel_source = none) := by
      intro h
      rw [(all_candidates_iff renderlist).mpr h] at hall
      cases hall
    obtain ⟨h1, h2, h3⟩ := add_renderables_spec dx self.display_handle
      (dx.invoke w (.vc_dispmanx_update_start 0)).1 renderlist hcand renderlist.length 0 []
      (remove_elements dx (dx.invoke w (.vc_dispmanx_update_start 0)).1 self.current_elements
        (dx.invoke w (.vc_dispmanx_update_start 0)).2) (by omega)
    have hrem := remove_elements_added_layers dx (dx.invoke w (.vc_dispmanx_update_start 0)).1
      self.current_elements (dx.invoke w (.vc_dispmanx_update_start 0)).2
    simp only [DisplayBuffer.overlay, hall, Bool.not_true, Bool.false_eq_true, if_false]
    rcases hr : add_renderables dx self.display_handle
        (dx.invoke w (.vc_dispmanx_update_start 0)).1 renderlist renderlist.length 0 []
        (remove_elements dx (dx.invoke w (.vc_dispmanx_update_start 0)).1
          self.current_elements (dx.invoke w (.vc_dispmanx_update_start 0)).2)
      with ⟨res, current, w1⟩
    rw [hr] at h1 h2 h3
    simp only at h1 h2 h3
    cases res with
    | error e =>
      dsimp only
      have he : e = .thrown std_runtime_error := by
        rcases h1 with h1 | h1
        · cases h1
        · simpa using h1
      subst he
      refine ⟨?_, (fun h => by cases h), Or.inr (Or.inr rfl), (fun h => by cases h), ?_⟩
      · constructor
        · intro h; cases h
        · intro h; exact absurd h hnot
      · intro _ hfmt hapi
        have := h3 hfmt hapi
        cases this
    | ok u =>
      dsimp only
      obtain ⟨added, a1, a2, a3, a4⟩ := h2 rfl
      refine ⟨?_, (fun h => by cases h), Or.inr (Or.inl rfl), ?_, (fun _ _ _ => rfl)⟩
      · constructor
        · intro h; cases h
        · intro h; exact absurd h hnot
      · intro _
        simp only [List.nil_append] at a1
        subst a1
        refine ⟨a2, a3, ?_⟩
        simp only [DispmanX.invoke, added_layers_append, added_layers, List.append_nil]
        rw [a4, hrem]
        simp [DispmanX.invoke, added_layers_append, added_layers]

theorem overlay_spec_witness :
    (∀ r ∈ [dispmanx_renderable, pixel_source_renderable .mir_pixel_format_xbgr_8888],
      renderable_is_overlay_candidate r = true) ∧
    (example_display_buffer.overlay counting_dispmanx
      [dispmanx_renderable, pixel_source_renderable .mir_pixel_format_xbgr_8888]
      fresh_dispmanx_world).1 = .ok true ∧
    (example_display_buffer.overlay counting_dispmanx
      [dispmanx_renderable, pixel_source_renderable .mir_pixel_format_xbgr_8888]
      fresh_dispmanx_world).2.1.current_elements = [3, 6] ∧
    added_layers (example_display_buffer.overlay counting_dispmanx
      [dispmanx_renderable, pixel_source_renderable .mir_pixel_format_xbgr_8888]
      fresh_dispmanx_world).2.2.calls
      = [(0, ⟨0, 0, 64, 32⟩), (1, ⟨10, 20, 64, 32⟩)] :=
  ⟨by decide,
    (overlay_spec example_display_buffer counting_dispmanx
      [dispmanx_renderable, pixel_source_renderable .mir_pixel_format_xbgr_8888]
      fresh_dispmanx_world).2.2.2.2 (by decide) (by decide)
      (fun s c _ => by simp [counting_dispmanx, DISPMANX_NO_HANDLE]),
    rfl, rfl⟩

end rpi

end graphics

end mir
